import Mathlib

/-!
Verification development for the Lera-KI repository (KI_testing):
a shallow embedding of `syllabus_analyzer.py`, `worksheet_generator.py`
and `worksheet_grader.py` in Lean 4, together with theorems settling the
frozen claims about the natural-language specification.

Modelling conventions:
* Python strings are sequences of code points; string algorithms are
  embedded over `List Char` and wrapped back into `String`.
* Python exceptions are `Except PyExn`; an uncaught exception is an
  `Except.error`.  `PyExn.requestException` stands for the class
  `requests.exceptions.RequestException` (which includes `HTTPError`
  raised by `raise_for_status`), `PyExn.jsonDecodeError` for
  `json.JSONDecodeError`, and `PyExn.other` for every other exception
  (`KeyError`, `TypeError`, `AttributeError`, `IndexError`), which in the
  source is only ever caught by a bare `except Exception`.
* `json.loads` is embedded as an executable recursive-descent parser over
  the JSON grammar restricted to the shapes the pipeline exchanges:
  objects, arrays, strings (with the common escapes; `\u` escapes are not
  modelled), integers, `true`, `false`, `null`.  Floating-point literals
  are outside the model (no claim depends on them).
* The HTTP layer is a `TransportResult`: either a raised transport
  exception or a received `(status, body)` pair; a retried call consumes
  one `TransportResult` per attempt from a sequence `Nat → TransportResult`.
* The flat-file stores (`syllabus/…json`, `worksheets/…html`) are
  association lists keyed by the exact path strings the source derives.
-/

/-- Exceptions that the embedded code can raise, grouped by which
`except` clause of the source would catch them. -/
inductive PyExn where
  | requestException
  | jsonDecodeError
  | other (name : String)
deriving Repr, DecidableEq

/-- Result of one `requests.post` call: either a raised
`requests.exceptions.RequestException` (connection error, timeout), or a
received HTTP response with a status code and a raw body. -/
inductive TransportResult where
  | exn
  | response (status : Nat) (body : String)
deriving Repr

/-- Python/JSON values exchanged by the pipeline (`dict`, `list`, `str`,
`int`, `bool`, `None`). -/
inductive JVal where
  | null
  | bool (b : Bool)
  | num (n : Int)
  | str (s : String)
  | arr (elems : List JVal)
  | obj (fields : List (String × JVal))
deriving Repr

/-- Python `v == n` against an `int` literal (`bool` is an `int` subtype
in Python; every other type compares unequal). -/
def pyEqInt (v : JVal) (n : Int) : Bool :=
  match v with
  | .num m => m == n
  | .bool b => (if b then (1 : Int) else 0) == n
  | _ => false

/-- Python `v == s` against a `str` literal. -/
def pyEqStr (v : JVal) (s : String) : Bool :=
  match v with
  | .str t => t == s
  | _ => false

/-! ### List-level string utilities (Python `str` methods) -/

/-- Characters stripped by Python `str.strip()` with no argument. -/
def isPySpace (c : Char) : Bool :=
  c = ' ' || c = '\t' || c = '\n' || c = '\r' || c = '\x0b' || c = '\x0c'

/-- Python `s.strip()` over the code-point list. -/
def stripL (l : List Char) : List Char :=
  ((l.dropWhile isPySpace).reverse.dropWhile isPySpace).reverse

/-- Python `s.strip()`. -/
def pyStrip (s : String) : String := ⟨stripL s.data⟩

/-- Python `s.startswith(p)` over code-point lists. -/
def startsWithL : List Char → List Char → Bool
  | [], _ => true
  | _ :: _, [] => false
  | p :: ps, c :: cs => p == c && startsWithL ps cs

/-- Python `s.find(c)` for a single character, as an optional index
(`none` plays the role of `-1`). -/
def findIdxL (c : Char) : List Char → Option Nat
  | [] => none
  | x :: xs => if x = c then some 0 else (findIdxL c xs).map (· + 1)

/-- Python `s.rfind(c)` for a single character. -/
def rfindIdxL (c : Char) (l : List Char) : Option Nat :=
  (findIdxL c l.reverse).map (fun i => l.length - 1 - i)

/-- Python slice `s[a:b]` (for `0 ≤ a ≤ b` shapes used by the source). -/
def sliceL (l : List Char) (a b : Nat) : List Char := (l.drop a).take (b - a)

/-- The three-backtick fence marker. -/
def ticks : List Char := "```".data

/-- Python `s.split('```')`: split on every non-overlapping occurrence of
the triple-backtick fence, keeping empty parts.  The fuel (first
argument) exceeds the length of the remaining input, so it never runs
out; it only keeps the recursion structural. -/
def splitTicksAux : Nat → List Char → List Char → List (List Char)
  | 0, cur, _ => [cur.reverse]
  | fuel + 1, cur, l =>
    match l with
    | [] => [cur.reverse]
    | c :: cs =>
      if startsWithL ticks (c :: cs) then
        cur.reverse :: splitTicksAux fuel [] (cs.drop 2)
      else
        splitTicksAux fuel (c :: cur) cs

/-- Python `l.split('```')` over code-point lists. -/
def splitTicksL (l : List Char) : List (List Char) :=
  splitTicksAux (l.length + 1) [] l

/-- Python `content.split('```')`. -/
def splitTicks (s : String) : List String :=
  (splitTicksL s.data).map (fun l => ⟨l⟩)

/-- Whether `needle` occurs as a contiguous substring (Python `in` on
strings). -/
def containsSub (needle : List Char) : List Char → Bool
  | [] => startsWithL needle []
  | c :: cs => startsWithL needle (c :: cs) || containsSub needle cs

/-- Decimal digit character for `n < 10`. -/
def natDigitChar (n : Nat) : Char := Char.ofNat (48 + n)

/-- Decimal rendering with fuel (the fuel exceeds the digit count, so it
never runs out; it only keeps the recursion structural). -/
def natDecimalAux : Nat → Nat → List Char
  | 0, _ => []
  | fuel + 1, n =>
    if n < 10 then [natDigitChar n]
    else natDecimalAux fuel (n / 10) ++ [natDigitChar (n % 10)]

/-- Decimal rendering of a natural number, code-point list of Python
`str(n)` for `n ≥ 0`. -/
def natDecimal (n : Nat) : List Char := natDecimalAux (n + 1) n

/-- Python `str(n)` for a natural number. -/
def pyStrNat (n : Nat) : String := ⟨natDecimal n⟩

/-- Python `str(n)` for an integer. -/
def pyStrInt (n : Int) : String :=
  if n < 0 then "-" ++ pyStrNat n.natAbs else pyStrNat n.natAbs

/-- Decode a list of decimal digit characters back to a number. -/
def decodeDec (l : List Char) : Nat :=
  l.foldl (fun a c => a * 10 + (c.toNat - 48)) 0

/-- Python `s.lower()` (ASCII case folding, which is what the stored
subjects use). -/
def pyLower (s : String) : String := ⟨s.data.map Char.toLower⟩

/-! ### A model of `json.loads` (restricted to the shapes exchanged) -/

/-- JSON whitespace (as accepted between tokens by `json.loads`). -/
def isJsonWs (c : Char) : Bool := c = ' ' || c = '\t' || c = '\n' || c = '\r'

/-- Skip JSON whitespace. -/
def skipWsL (l : List Char) : List Char := l.dropWhile isJsonWs

/-- Opening brace code point. -/
def lbrace : Char := Char.ofNat 123

/-- Closing brace code point. -/
def rbrace : Char := Char.ofNat 125

/-- Translate a JSON string escape character (the `\u` form is outside
the model; no claim exercises it). -/
def escChar (c : Char) : Option Char :=
  if c = '"' then some '"'
  else if c = '\\' then some '\\'
  else if c = '/' then some '/'
  else if c = 'n' then some '\n'
  else if c = 't' then some '\t'
  else if c = 'r' then some '\r'
  else if c = 'b' then some '\x08'
  else if c = 'f' then some '\x0c'
  else none

/-- Parse the body of a JSON string after the opening quote, in strict
mode (raw control characters rejected, as `json.loads` does). -/
def parseStrBody (acc : List Char) : List Char → Option (String × List Char)
  | [] => none
  | c :: cs =>
    if c = '"' then some (⟨acc.reverse⟩, cs)
    else if c = '\\' then
      match cs with
      | [] => none
      | e :: cs2 =>
        match escChar e with
        | some ec => parseStrBody (ec :: acc) cs2
        | none => none
    else if c.toNat < 32 then none
    else parseStrBody (c :: acc) cs

/-- Parse a JSON integer literal (floating-point literals are outside the
model; no claim depends on them). -/
def parseNumJ (cs : List Char) : Option (JVal × List Char) :=
  let (neg, cs1) :=
    match cs with
    | c :: r => if c = '-' then (true, r) else (false, cs)
    | [] => (false, cs)
  let digits := cs1.takeWhile Char.isDigit
  let rest := cs1.dropWhile Char.isDigit
  if digits.isEmpty then none
  else if digits.length > 1 && digits.head? == some '0' then none
  else
    let ok : Option (JVal × List Char) :=
      some (.num ((if neg then -1 else 1) * Int.ofNat (decodeDec digits)), rest)
    match rest with
    | [] => ok
    | c :: _ => if c = '.' || c = 'e' || c = 'E' then none else ok

/-- Replicate CPython dict assignment `d[k] = v`: an existing key keeps
its position and gets the new value, a new key is appended. -/
def setKey : List (String × JVal) → String → JVal → List (String × JVal)
  | [], k, v => [(k, v)]
  | (k', v') :: rest, k, v =>
    if k' == k then (k', v) :: rest else (k', v') :: setKey rest k v

mutual

/-- Parse one JSON value; `fuel` bounds the recursion depth. -/
def parseJ : Nat → List Char → Option (JVal × List Char)
  | 0, _ => none
  | fuel + 1, cs =>
    match skipWsL cs with
    | [] => none
    | c :: rest =>
      if c = lbrace then
        match skipWsL rest with
        | c2 :: rest2 =>
          if c2 = rbrace then some (.obj [], rest2)
          else parseMembersJ fuel [] (c2 :: rest2)
        | [] => none
      else if c = '[' then
        match skipWsL rest with
        | c2 :: rest2 =>
          if c2 = ']' then some (.arr [], rest2)
          else parseItemsJ fuel [] (c2 :: rest2)
        | [] => none
      else if c = '"' then
        match parseStrBody [] rest with
        | some (s, rest2) => some (.str s, rest2)
        | none => none
      else if startsWithL "true".data (c :: rest) then
        some (.bool true, (c :: rest).drop 4)
      else if startsWithL "false".data (c :: rest) then
        some (.bool false, (c :: rest).drop 5)
      else if startsWithL "null".data (c :: rest) then
        some (.null, (c :: rest).drop 4)
      else if c = '-' || c.isDigit then
        parseNumJ (c :: rest)
      else none

/-- Parse the members of a JSON object after its opening brace. -/
def parseMembersJ : Nat → List (String × JVal) → List Char →
    Option (JVal × List Char)
  | 0, _, _ => none
  | fuel + 1, acc, cs =>
    match skipWsL cs with
    | [] => none
    | q :: rest =>
      if q = '"' then
        match parseStrBody [] rest with
        | none => none
        | some (key, rest2) =>
          match skipWsL rest2 with
          | ':' :: rest3 =>
            match parseJ fuel rest3 with
            | none => none
            | some (v, rest4) =>
              let acc2 := setKey acc key v
              match skipWsL rest4 with
              | ',' :: rest5 => parseMembersJ fuel acc2 rest5
              | r :: rest5 =>
                if r = rbrace then some (.obj acc2, rest5) else none
              | [] => none
          | _ => none
      else none

/-- Parse the items of a JSON array after its opening bracket. -/
def parseItemsJ : Nat → List JVal → List Char → Option (JVal × List Char)
  | 0, _, _ => none
  | fuel + 1, acc, cs =>
    match parseJ fuel cs with
    | none => none
    | some (v, rest) =>
      match skipWsL rest with
      | ',' :: rest2 => parseItemsJ fuel (acc ++ [v]) rest2
      | r :: rest2 => if r = ']' then some (.arr (acc ++ [v]), rest2) else none
      | [] => none

end

/-- Python `json.loads(s)`: parse exactly one JSON value surrounded only
by whitespace, else raise `json.JSONDecodeError`. -/
def json_loads (s : String) : Except PyExn JVal :=
  match parseJ (s.data.length + 1) s.data with
  | some (v, rest) =>
    if (skipWsL rest).isEmpty then .ok v else .error .jsonDecodeError
  | none => .error .jsonDecodeError

/-! ### Python object operations used by the pipeline -/

/-- Lookup in an embedded dict (first — and only — occurrence of a key,
since `setKey` keeps keys unique). -/
def jLookup (fields : List (String × JVal)) (k : String) : Option JVal :=
  (fields.find? (fun p => p.1 == k)).map (·.2)

/-- Lookup a key of an object value, `none` when the value is not an
object or lacks the key. -/
def jGet (v : JVal) (k : String) : Option JVal :=
  match v with
  | .obj fs => jLookup fs k
  | _ => none

/-- Python subscript `v[k]` with a string key. -/
def pySubscriptStr (v : JVal) (k : String) : Except PyExn JVal :=
  match v with
  | .obj fs =>
    match jLookup fs k with
    | some x => .ok x
    | none => .error (.other ("KeyError: " ++ k))
  | .arr _ => .error (.other "TypeError: list indices must be integers")
  | .str _ => .error (.other "TypeError: string indices must be integers")
  | _ => .error (.other "TypeError: object is not subscriptable")

/-- Python subscript `v[i]` with a non-negative integer index. -/
def pySubscriptNat (v : JVal) (i : Nat) : Except PyExn JVal :=
  match v with
  | .arr xs =>
    match xs.get? i with
    | some x => .ok x
    | none => .error (.other "IndexError: list index out of range")
  | .str s =>
    match s.data.get? i with
    | some c => .ok (.str ⟨[c]⟩)
    | none => .error (.other "IndexError: string index out of range")
  | .obj _ => .error (.other "KeyError: int key")
  | _ => .error (.other "TypeError: object is not subscriptable")

/-- Python `k in v` (membership test). -/
def pyContains (v : JVal) (k : String) : Except PyExn Bool :=
  match v with
  | .obj fs => .ok (fs.any (fun p => p.1 == k))
  | .arr xs => .ok (xs.any (fun x => pyEqStr x k))
  | .str s => .ok (containsSub k.data s.data)
  | _ => .error (.other "TypeError: argument is not iterable")

/-- Python `v.get(k, default)`, an `AttributeError` when `v` is not a
dict. -/
def pyDictGet (v : JVal) (k : String) (default : JVal) : Except PyExn JVal :=
  match v with
  | .obj fs => .ok ((jLookup fs k).getD default)
  | _ => .error (.other "AttributeError: no attribute get")

/-- Python `len(v)`. -/
def pyLen (v : JVal) : Except PyExn Nat :=
  match v with
  | .arr xs => .ok xs.length
  | .obj fs => .ok fs.length
  | .str s => .ok s.data.length
  | _ => .error (.other "TypeError: object has no len")

/-- Python `v[k] = x` for a dict, a `TypeError` otherwise. -/
def pySetItem (v : JVal) (k : String) (x : JVal) : Except PyExn JVal :=
  match v with
  | .obj fs => .ok (.obj (setKey fs k x))
  | _ => .error (.other "TypeError: object does not support item assignment")

/-- Coerce to a Python `str`, an `AttributeError` otherwise (raised at
the first string-method call on the value). -/
def pyAsStr (v : JVal) : Except PyExn String :=
  match v with
  | .str s => .ok s
  | _ => .error (.other "AttributeError: no attribute strip")

/-- Flat-file stores (`syllabus/`, `worksheets/`, `grading_results/`)
keyed by the exact path string; a write overwrites. -/
abbrev Store := List (String × JVal)

/-- Overwrite-on-write file store update. -/
def storePut (st : Store) (k : String) (v : JVal) : Store := (k, v) :: st

/-- Read a stored file (`Path(...).exists()` + `json.load`). -/
def storeGet (st : Store) (k : String) : Option JVal :=
  (st.find? (fun p => p.1 == k)).map (·.2)

/-! ### Response sanitizers

`worksheet_grader.clean_json_response` (lines 20-34): after `strip()`,
when the content starts with a triple-backtick fence the source does
`lines = content.split('\n')` and then `lines.startswith('```')` — an
attribute lookup on a *list*, which raises `AttributeError` (despite the
adjacent comment claiming the first string of the list is checked).  The
non-fenced path narrows the candidate to the substring from the first
`{` to the last `}` inclusive when both occur. -/

/-- Embedding of `clean_json_response` from `worksheet_grader.py`. -/
def clean_json_response (content : String) : Except PyExn String :=
  let c := stripL content.data
  if startsWithL ticks c then
    .error (.other "AttributeError: list object has no attribute startswith")
  else
    match findIdxL lbrace c, rfindIdxL rbrace c with
    | some s, some e => .ok ⟨sliceL c s (e + 1)⟩
    | _, _ => .ok ⟨c⟩

/-- Fence stripping inlined in `syllabus_analyzer.analyze_syllabus`
(lines 62-66): `content.split('```')[1]`, drop a leading `json` tag,
then `strip()`. Applied to already-stripped content that starts with
the fence. -/
def analyzerFenceStrip (content : List Char) : Except PyExn (List Char) :=
  if startsWithL ticks content then
    match (splitTicksL content).get? 1 with
    | none => .error (.other "IndexError: list index out of range")
    | some part =>
      let part := if startsWithL "json".data part then part.drop 4 else part
      .ok (stripL part)
  else .ok content

/-- Fence stripping inlined in `worksheet_generator.generate_worksheet`
(lines 171-175): `content.split('```')[1]`, drop a leading `html` tag,
then `strip()`. -/
def generatorFenceStrip (content : List Char) : Except PyExn (List Char) :=
  if startsWithL ticks content then
    match (splitTicksL content).get? 1 with
    | none => .error (.other "IndexError: list index out of range")
    | some part =>
      let part := if startsWithL "html".data part then part.drop 4 else part
      .ok (stripL part)
  else .ok content

/-- Extraction `result['choices'][0]['message']['content']` shared by the
three pipelines. -/
def extractContent (result : JVal) : Except PyExn JVal := do
  let cs ← pySubscriptStr result "choices"
  let c0 ← pySubscriptNat cs 0
  let msg ← pySubscriptStr c0 "message"
  pySubscriptStr msg "content"

/-! ### `worksheet_grader.grade_worksheet_vision` (lines 36-155)

The retry loop performs up to `max_retries` attempts.  Each attempt calls
`requests.post` (may raise a transport exception), `raise_for_status`
(raises `requests.exceptions.HTTPError` — a `RequestException` — for any
status in `[400, 600)`), `response.json()` (modelled as raising
`json.JSONDecodeError` on a non-JSON body, the behaviour of the
`requests` releases the source's handler names), then inspects the body.
The `except requests.exceptions.RequestException` handler sleeps 2
seconds and retries while attempts remain; `except json.JSONDecodeError`
and the bare `except Exception` return `None` immediately.  The trace of
attempts and sleeps is recorded as a list of events. -/

/-- Fixed retry bound of `grade_worksheet_vision` (line 89). -/
def max_retries : Nat := 3

/-- Observable events of one `grade_worksheet_vision` invocation. -/
inductive Event where
  | attempt (i : Nat)
  | sleep (secs : Nat)
deriving Repr, DecidableEq

/-- How the body of one attempt (the `try` block, lines 91-133) exits
short of raising: an explicit `return`, or `time.sleep(2); continue`. -/
inductive BodyOutcome where
  | ret (r : Option JVal)
  | retrySleep
deriving Repr

/-- One uploaded worksheet page as `app.py` passes it in. -/
structure ImageData where
  base64 : String
  mime_type : String

/-- The outbound vision payload data (lines 43-85): the fields substituted
into the prompt template and the per-image data URIs.  It only feeds the
HTTP request, whose response the model quantifies over separately. -/
structure VisionRequest where
  grade : Int
  subject : String
  title : String
  numImages : Nat
  answerKey : String
  imageUrls : List String

/-- Fallback answer key (lines 43-44). -/
def defaultAnswerKey : String :=
  "Not provided. Evaluate correctness based on standard expectations."

/-- Lines 43-44: `if not answer_key or not answer_key.strip()` replaces a
missing or blank key with the fallback instruction. -/
def effectiveAnswerKey (ak : Option String) : String :=
  match ak with
  | none => defaultAnswerKey
  | some s => if (stripL s.data).isEmpty then defaultAnswerKey else s

/-- Assemble the outbound payload data (lines 43-85). -/
def buildVisionRequest (grade : Int) (subject title : String)
    (images : List ImageData) (ak : Option String) : VisionRequest :=
  { grade := grade, subject := subject, title := title,
    numImages := images.length, answerKey := effectiveAnswerKey ak,
    imageUrls := images.map
      (fun i => "data:" ++ i.mime_type ++ ";base64," ++ i.base64) }

/-- The model identifier hard-coded at lines 76 and 124. -/
def visionModelId : String := "nvidia/nemotron-nano-12b-v2-vl:free"

/-- Lines 101-110: the in-body error envelope; `code` values 502, 503,
429 trigger `time.sleep(2); continue` while attempts remain, everything
else returns `None`. -/
def handleErrorBody (result : JVal) (attempt : Nat) :
    Except PyExn BodyOutcome := do
  let errVal ← pySubscriptStr result "error"
  let _msg ← pyDictGet errVal "message" (.str "Unknown API Error")
  let code ← pyDictGet errVal "code" .null
  if (pyEqInt code 502 || pyEqInt code 503 ||
      pyEqInt code 429) && decide (attempt < max_retries - 1) then
    pure .retrySleep
  else pure (.ret none)

/-- Lines 112-133: the success envelope — guard `choices`, extract and
sanitize the content, parse it, inject the metadata block. -/
def handleSuccessBody (result : JVal) (grade : Int) (subject : String) :
    Except PyExn BodyOutcome := do
  let hasChoices ← pyContains result "choices"
  if !hasChoices then pure (.ret none)
  else do
    let cs ← pySubscriptStr result "choices"
    let n ← pyLen cs
    if n == 0 then pure (.ret none)
    else do
      let raw ← extractContent result
      let rawS ← pyAsStr raw
      let cleaned ← clean_json_response rawS
      let gd ← json_loads cleaned
      let u ← pySubscriptStr result "usage"
      let tt ← pySubscriptStr u "total_tokens"
      let pt ← pySubscriptStr u "prompt_tokens"
      let ct ← pySubscriptStr u "completion_tokens"
      let meta := JVal.obj [("model", .str visionModelId),
        ("tokens_used", tt), ("prompt_tokens", pt),
        ("completion_tokens", ct), ("grade_level", .num grade),
        ("subject", .str subject)]
      let gd2 ← pySetItem gd "metadata" meta
      pure (.ret (some gd2))

/-- Lines 100-133: dispatch on `'error' in result`. -/
def handleResult (result : JVal) (grade : Int) (subject : String)
    (attempt : Nat) : Except PyExn BodyOutcome := do
  let hasErr ← pyContains result "error"
  if hasErr then handleErrorBody result attempt
  else handleSuccessBody result grade subject

/-- Body of one attempt of the vision-grading loop (lines 91-133), for
attempt index `attempt`; an `Except.error` is an exception reaching the
`except` clauses. -/
def attemptBody (tr : TransportResult) (grade : Int) (subject : String)
    (attempt : Nat) : Except PyExn BodyOutcome := do
  match tr with
  | .exn => .error .requestException
  | .response status body =>
    if 400 ≤ status ∧ status < 600 then .error .requestException
    else do
      let result ← json_loads body
      handleResult result grade subject attempt

/-- The retry loop (lines 90-155): `i` is the current attempt index,
`rem` the remaining loop iterations (invariant `i + rem = max_retries`).
Exhausting the loop reaches lines 154-155 and returns `None`.  The
`except` clauses map every raised exception to a result, so the loop
itself never raises. -/
def gradeAux (resp : Nat → TransportResult) (grade : Int) (subject : String) :
    Nat → Nat → Option JVal × List Event
  | _, 0 => (none, [])
  | i, rem + 1 =>
    match attemptBody (resp i) grade subject i with
    | .ok (.ret r) => (r, [.attempt i])
    | .ok .retrySleep =>
      let (r, evs) := gradeAux resp grade subject (i + 1) rem
      (r, .attempt i :: .sleep 2 :: evs)
    | .error .requestException =>
      if i < max_retries - 1 then
        let (r, evs) := gradeAux resp grade subject (i + 1) rem
        (r, .attempt i :: .sleep 2 :: evs)
      else (none, [.attempt i])
    | .error .jsonDecodeError => (none, [.attempt i])
    | .error (.other _) => (none, [.attempt i])

/-- Embedding of `grade_worksheet_vision`.  The `Except` layer records
whether an exception escapes the function; the `except` clauses inside
`gradeAux` handle every exception the body can raise, so the result is
always `Except.ok` — which is exactly what the totality claim asserts. -/
def grade_worksheet_vision (grade : Int) (subject title : String)
    (images : List ImageData) (answer_key : Option String)
    (resp : Nat → TransportResult) :
    Except PyExn (Option JVal × List Event) :=
  let _req := buildVisionRequest grade subject title images answer_key
  .ok (gradeAux resp grade subject 0 max_retries)

/-! ### `syllabus_analyzer.py` -/

/-- Path derivation shared by `analyze_syllabus` (line 79),
`load_analyzed_syllabus` (line 115) and `load_syllabus` (line 20 of the
generator): grade verbatim, subject case-folded. -/
def syllabus_path (grade : Int) (subject : String) : String :=
  "syllabus/syllabus_grade" ++ pyStrInt grade ++ "_" ++ pyLower subject ++ ".json"

/-- Line 90: `sum(len(topic['subtopics']) for topic in topics)`;
iterating a non-list raises unless the iterable is empty. -/
def pySumSubtopicLens (topics : JVal) : Except PyExn Nat :=
  match topics with
  | .arr xs =>
    xs.foldlM
      (fun acc t => do
        let s ← pySubscriptStr t "subtopics"
        let n ← pyLen s
        pure (acc + n)) 0
  | .str s =>
    if s.data.isEmpty then .ok 0
    else .error (.other "TypeError: string indices must be integers")
  | .obj fs =>
    if fs.isEmpty then .ok 0
    else .error (.other "TypeError: string indices must be integers")
  | _ => .error (.other "TypeError: object is not iterable")

/-- Embedding of `analyze_syllabus` (lines 17-110).  `syllabus_text`
only feeds the outbound prompt; `now` is the timestamp
`datetime.now().isoformat()`; `resp` the HTTP outcome; `store` the
`syllabus/` directory.  Only `json.JSONDecodeError` from the
`json.loads(content)` at line 69 is caught (lines 103-106); every other
exception — including `KeyError` on a 200 body missing `choices` or
`usage` — propagates.  On an uncaught exception the store state is not
part of the result. -/
def analyze_syllabus (grade : Int) (subject : String)
    (_syllabus_text : String) (save_to_file : Bool) (now : String)
    (resp : TransportResult) (store : Store) :
    Except PyExn (Option JVal × Store) :=
  match resp with
  | .exn => .error .requestException
  | .response status body =>
    if status == 200 then do
      let result ← json_loads body
      let contentV ← extractContent result
      let contentS ← pyAsStr contentV
      let content0 := stripL contentS.data
      let content ← analyzerFenceStrip content0
      match json_loads ⟨content⟩ with
      | .error _ => pure (none, store)
      | .ok sdata => do
        let u ← pySubscriptStr result "usage"
        let tt ← pySubscriptStr u "total_tokens"
        let meta := JVal.obj [("analyzed_at", .str now), ("tokens_used", tt)]
        let sdata2 ← pySetItem sdata "_metadata" meta
        let store2 ←
          if save_to_file then do
            let store2 := storePut store (syllabus_path grade subject) sdata2
            let topics ← pySubscriptStr sdata2 "topics"
            let _ ← pyLen topics
            let _ ← pySumSubtopicLens topics
            pure store2
          else pure store
        let _ ← pySubscriptStr u "total_tokens"
        let _ ← pySubscriptStr u "prompt_tokens"
        let _ ← pySubscriptStr u "completion_tokens"
        pure (some sdata2, store2)
    else
      pure (none, store)

/-- Embedding of `load_analyzed_syllabus` (lines 113-122): read the file
at the derived path, `None` when absent. -/
def load_analyzed_syllabus (grade : Int) (subject : String) (store : Store) :
    Option JVal :=
  storeGet store (syllabus_path grade subject)

/-! ### `worksheet_generator.py` -/

/-- One subtopic of a loaded syllabus document. -/
structure Subtopic where
  id : String
  name : String
deriving Repr, DecidableEq

/-- One topic of a loaded syllabus document. -/
structure Topic where
  name : String
  subtopics : List Subtopic
deriving Repr, DecidableEq

/-- A loaded syllabus document as `generate_worksheet` consumes it. -/
structure SyllabusData where
  topics : List Topic
deriving Repr, DecidableEq

/-- Embedding of `find_subtopic_by_id` (lines 29-35): scan topics in
order, within each topic scan subtopics in order, return the first
subtopic whose `id` matches, else `None`. -/
def find_subtopic_by_id (syllabus_data : SyllabusData) (subtopic_id : String) :
    Option Subtopic :=
  syllabus_data.topics.findSome?
    (fun t => t.subtopics.find? (fun st => st.id == subtopic_id))

/-- One teacher-specified question block.  The source consumes plain
dicts; optional keys are `Option` fields, and the `sub_blocks` key the
specification describes is carried so its (non-)treatment can be
stated — `generate_worksheet` never reads it. -/
inductive QuestionBlock where
  | mk (type : String) (count : Option Int) (subtopic_id : Option String)
       (topic_name : Option String) (options : Option Int)
       (difficulty : Option String)
       (sub_blocks : Option (List QuestionBlock))

/-- The `type` key (required; `block['type']`, line 83). -/
def QuestionBlock.type : QuestionBlock → String
  | .mk t _ _ _ _ _ _ => t

/-- The optional `count` key. -/
def QuestionBlock.count : QuestionBlock → Option Int
  | .mk _ c _ _ _ _ _ => c

/-- The optional `subtopic_id` key. -/
def QuestionBlock.subtopic_id : QuestionBlock → Option String
  | .mk _ _ s _ _ _ _ => s

/-- The optional `topic_name` key. -/
def QuestionBlock.topic_name : QuestionBlock → Option String
  | .mk _ _ _ tn _ _ _ => tn

/-- The optional `options` key. -/
def QuestionBlock.options : QuestionBlock → Option Int
  | .mk _ _ _ _ o _ _ => o

/-- The optional `difficulty` key. -/
def QuestionBlock.difficulty : QuestionBlock → Option String
  | .mk _ _ _ _ _ d _ => d

/-- The optional `sub_blocks` key (never read by the source). -/
def QuestionBlock.sub_blocks : QuestionBlock → Option (List QuestionBlock)
  | .mk _ _ _ _ _ _ sb => sb

/-- Replace the `count` key of a block, all other keys unchanged. -/
def QuestionBlock.setCount : QuestionBlock → Option Int → QuestionBlock
  | .mk t _ s tn o d sb, c => .mk t c s tn o d sb

/-- The chart/table types of line 94. -/
def chartBlockTypes : List String :=
  ["bar_chart", "pie_chart", "line_chart", "data_table"]

/-- Topic-name resolution (lines 86-91): by `subtopic_id` against the
loaded document with literal fallback, else the explicit `topic_name`
with the same fallback. -/
def resolveTopicName (syll : SyllabusData) (b : QuestionBlock) : String :=
  match b.subtopic_id with
  | some sid =>
    match find_subtopic_by_id syll sid with
    | some st => st.name
    | none => "Practice Problems"
  | none => b.topic_name.getD "Practice Problems"

/-- The mutable `chart_counter` dict of line 76. -/
structure ChartCounter where
  bar : Nat
  pie : Nat
  line : Nat
deriving Repr, DecidableEq

/-- Python `s.upper()` (ASCII). -/
def pyUpper (s : String) : String := ⟨s.data.map Char.toUpper⟩

/-- Chart/table section rendering (lines 94-112), returning the emitted
lines, the updated counters and the chart identifiers allocated (the
exact strings interpolated into the instructions). -/
def renderChartSection (idx : Nat) (topicName itemType : String)
    (cc : ChartCounter) : List String × ChartCounter × List String :=
  let header := ["\n--- SECTION " ++ pyStrNat idx ++ " START ---",
    "Output: <h2>" ++ pyStrNat idx ++ ". " ++ topicName ++ "</h2>"]
  let (mid, cc2, ids) :=
    if itemType = "bar_chart" then
      (["Output: CSS bar chart (5 bars)"], cc, ([] : List String))
    else if itemType = "pie_chart" then
      let chart_id := "piechart_" ++ pyStrNat cc.pie
      (["Output: Google pie chart with id=\x27" ++ chart_id ++ "\x27 (4 items)"],
        { cc with pie := cc.pie + 1 }, [chart_id])
    else if itemType = "line_chart" then
      let chart_id := "linechart_" ++ pyStrNat cc.line
      (["Output: Google line chart with id=\x27" ++ chart_id ++ "\x27 (5 days)"],
        { cc with line := cc.line + 1 }, [chart_id])
    else
      (["Output: Data table (4 rows)"], cc, [])
  (header ++ mid ++ ["--- SECTION " ++ pyStrNat idx ++ " END ---\n"], cc2, ids)

/-- Regular question section rendering (lines 114-137); `count` defaults
to 1 here (line 84). -/
def renderQuestionSection (idx : Nat) (topicName : String)
    (b : QuestionBlock) : List String :=
  let count := b.count.getD 1
  let qd :=
    if count == 1 then "Output EXACTLY ONE " ++ b.type ++ " question"
    else "Output EXACTLY " ++ pyStrInt count ++ " " ++ b.type ++ " question(s)"
  let qd := qd ++ " about \x27" ++ topicName ++ "\x27"
  let qd :=
    if b.type = "draw_time" || b.type = "tell_time" then
      qd ++ " - USE ONLY THE " ++ pyUpper b.type ++ " FORMAT, NO WORD PROBLEMS"
    else qd
  let qd :=
    match b.options with
    | some o => qd ++ " (" ++ pyStrInt o ++ " options)"
    | none => qd
  let qd :=
    match b.difficulty with
    | some d => if d ≠ "" then qd ++ " [difficulty: " ++ d ++ "]" else qd
    | none => qd
  ["\n--- SECTION " ++ pyStrNat idx ++ " START ---",
   "Output: <h2>" ++ pyStrNat idx ++ ". " ++ topicName ++ "</h2>",
   "Output: " ++ qd,
   "STOP AFTER " ++ pyStrInt count ++ " QUESTION(S) - DO NOT ADD MORE",
   "--- SECTION " ++ pyStrNat idx ++ " END ---\n"]

/-- State threaded through the block loop (lines 76-139). -/
structure GenLoopState where
  counter : ChartCounter
  instructions : List String
  chartIds : List String
deriving Repr, DecidableEq

/-- One iteration of the block loop (lines 82-139). -/
def processBlock (syll : SyllabusData) (idx : Nat) (b : QuestionBlock)
    (st : GenLoopState) : GenLoopState :=
  let topicName := resolveTopicName syll b
  if chartBlockTypes.contains b.type then
    let (emitted, cc2, ids) := renderChartSection idx topicName b.type st.counter
    { counter := cc2, instructions := st.instructions ++ emitted,
      chartIds := st.chartIds ++ ids }
  else
    { st with instructions := st.instructions ++ renderQuestionSection idx topicName b }

/-- The block loop, `enumerate(question_blocks, 1)`. -/
def processBlocksAux (syll : SyllabusData) :
    Nat → GenLoopState → List QuestionBlock → GenLoopState
  | _, st, [] => st
  | idx, st, b :: bs => processBlocksAux syll (idx + 1) (processBlock syll idx b st) bs

/-- Run the block loop from the initial state of lines 76-80. -/
def processBlocks (syll : SyllabusData) (blocks : List QuestionBlock) :
    GenLoopState :=
  processBlocksAux syll 1 ⟨⟨0, 0, 0⟩, [], []⟩ blocks

/-- Line 141: `sum(b.get('count', 0) for b in question_blocks if
b['type'] not in ['data_table', 'bar_chart', 'pie_chart',
'line_chart'])`. -/
def total_problems (question_blocks : List QuestionBlock) : Int :=
  ((question_blocks.filter
      (fun b => !(["data_table", "bar_chart", "pie_chart",
        "line_chart"].contains b.type))).map
    (fun b => b.count.getD 0)).sum

/-- Filename sanitization of lines 191-192: keep alphanumerics, space,
hyphen, underscore; replace the rest and then spaces with underscores;
lowercase. -/
def worksheet_safe_title (t : String) : String :=
  pyLower ⟨(t.data.map
    (fun c => if c.isAlphanum || c = ' ' || c = '-' || c = '_' then c
      else '_')).map (fun c => if c = ' ' then '_' else c)⟩

/-- Output path of line 193. -/
def worksheet_path (grade : Int) (title : String) : String :=
  "worksheets/grade" ++ pyStrInt grade ++ "_" ++ worksheet_safe_title title ++ ".html"

/-- The `worksheets/` directory as a path-keyed store of HTML text. -/
abbrev WStore := List (String × String)

/-- Embedding of `generate_worksheet` (lines 38-213).  `syllabus_data`
is the result of `load_syllabus` (the `syllabus/` file for the pair, or
`None`); `template` the worksheet template file; `resp` the HTTP
outcome; `wstore` the `worksheets/` directory.  The prompt assembled at
lines 144-162 only feeds the outbound request.  No exception is caught:
a transport error, a non-JSON 200 body, and a 200 body missing
`choices`/`usage` keys all propagate. -/
def generate_worksheet (grade : Int) (worksheet_title : String)
    (question_blocks : List QuestionBlock) (subject : String)
    (syllabus_data : Option SyllabusData) (template : String)
    (resp : TransportResult) (wstore : WStore) :
    Except PyExn (Option String × WStore) :=
  match syllabus_data with
  | none => .ok (none, wstore)
  | some syll =>
    let st := processBlocks syll question_blocks
    let totalProblems := total_problems question_blocks
    let _prompt := String.join st.instructions
    match resp with
    | .exn => .error .requestException
    | .response status body =>
      if status == 200 then do
        let result ← json_loads body
        let contentV ← extractContent result
        let contentS ← pyAsStr contentV
        let content0 := stripL contentS.data
        let content ← generatorFenceStrip content0
        let titleStr := "Grade " ++ pyStrInt grade ++ " " ++ subject ++ " - " ++
          worksheet_title
        let html := ((template.replace "\x7b\x7bTITLE\x7d\x7d" titleStr).replace
          "\x7b\x7bCONTENT\x7d\x7d" ⟨content⟩).replace
          "\x7b\x7bTOTAL_POINTS\x7d\x7d" (pyStrInt totalProblems)
        let wstore2 := (worksheet_path grade worksheet_title, html) :: wstore
        let u ← pySubscriptStr result "usage"
        let _ ← pySubscriptStr u "prompt_tokens"
        let _ ← pySubscriptStr u "completion_tokens"
        let _ ← pySubscriptStr u "total_tokens"
        pure (some html, wstore2)
      else
        pure (none, wstore)

/-- Modelled from the spec sentence "Total expected question count = sum
of `count` (or nested `sub_blocks[*].count`) across all blocks whose type
is not a chart/table type", for comparison with `total_problems` (the
value line 141 actually computes). -/
def spec_expected_total (blocks : List QuestionBlock) : Int :=
  ((blocks.filter (fun b => !chartBlockTypes.contains b.type)).map
    (fun b =>
      match b.sub_blocks with
      | some subs => (subs.map (fun sb => sb.count.getD 0)).sum
      | none => b.count.getD 0)).sum

/-- Erase the `sub_blocks` key of a block, all other keys unchanged. -/
def QuestionBlock.dropSubBlocks : QuestionBlock → QuestionBlock
  | .mk t c s tn o d _ => .mk t c s tn o d none

/-- Model response used for the C5 counterexample: a valid envelope
whose content is a JSON object surrounded by prose. -/
def c5Body : String :=
  "\x7b\"choices\": [\x7b\"message\": \x7b\"content\": \"The JSON: \x7b\\\"topics\\\": []\x7d done\"\x7d\x7d]\x7d"

/-- The metadata block `grade_worksheet_vision` injects before returning
(lines 123-130). -/
def hasVisionMetadata (g : Int) (s : String) (d : JVal) : Prop :=
  ∃ meta, jGet d "metadata" = some (.obj meta) ∧
    jLookup meta "grade_level" = some (.num g) ∧
    jLookup meta "subject" = some (.str s) ∧
    jLookup meta "model" = some (.str visionModelId)

/-! ### Chart-identifier allocation -/

/-- Expected chart-id stream for a block list, given the starting pie
and line counters; used to characterise the loop's allocations. -/
def genIds (p l : Nat) : List QuestionBlock → List String
  | [] => []
  | b :: bs =>
    if b.type = "pie_chart" then
      ("piechart_" ++ pyStrNat p) :: genIds (p + 1) l bs
    else if b.type = "line_chart" then
      ("linechart_" ++ pyStrNat l) :: genIds p (l + 1) bs
    else genIds p l bs

/-- Concrete syllabus document for the C7 witness. -/
def c7Syllabus : SyllabusData :=
  ⟨[⟨"Numbers", [⟨"n1", "Addition"⟩, ⟨"n2", "Subtraction"⟩]⟩,
    ⟨"Geometry", [⟨"g1", "Shapes"⟩]⟩]⟩

/-- Model response for the C8 witness: a valid envelope whose content is
a syllabus JSON object. -/
def c8Body : String :=
  "\x7b\"choices\": [\x7b\"message\": \x7b\"content\": \"\x7b\\\"topics\\\": []\x7d\"\x7d\x7d], \"usage\": \x7b\"total_tokens\": 5, \"prompt_tokens\": 3, \"completion_tokens\": 2\x7d\x7d"

/-- The document the C8 witness run stores and returns. -/
def c8Doc : JVal :=
  .obj [("topics", .arr []),
    ("_metadata", .obj [("analyzed_at", .str "T0"), ("tokens_used", .num 5)])]

theorem decodeDec_append_digit (l : List Char) (c : Char) :
    decodeDec (l ++ [c]) = decodeDec l * 10 + (c.toNat - 48) := by
  simp [decodeDec]

theorem natDigitChar_toNat (n : Nat) (h : n < 10) :
    (natDigitChar n).toNat - 48 = n := by
  interval_cases n <;> decide

theorem decodeDec_natDecimalAux (fuel n : Nat) (h : n < fuel) :
    decodeDec (natDecimalAux fuel n) = n := by
  induction fuel generalizing n with
  | zero => omega
  | succ fuel ih =>
    rw [natDecimalAux]
    split
    · next h10 => simp [decodeDec, natDigitChar_toNat n h10]
    · next h10 =>
      have hlt : n / 10 < n := Nat.div_lt_self (by omega) (by omega)
      rw [decodeDec_append_digit, ih _ (by omega),
        natDigitChar_toNat (n % 10) (Nat.mod_lt _ (by omega))]
      omega

theorem decodeDec_natDecimal (n : Nat) : decodeDec (natDecimal n) = n :=
  decodeDec_natDecimalAux (n + 1) n (by omega)

theorem natDecimal_inj {a b : Nat} (h : natDecimal a = natDecimal b) : a = b := by
  have := decodeDec_natDecimal a
  rw [h, decodeDec_natDecimal] at this
  omega

/-! ### Helper lemmas -/

theorem exceptBind_ok {α β : Type} {x : Except PyExn α} {f : α → Except PyExn β}
    {b : β} (h : x >>= f = Except.ok b) : ∃ a, x = .ok a ∧ f a = .ok b := by
  cases x with
  | ok a => exact ⟨a, rfl, h⟩
  | error e => simp [Bind.bind, Except.bind] at h

theorem contains_chart_comm (ty : String) :
    (["data_table", "bar_chart", "pie_chart", "line_chart"].contains ty) =
      chartBlockTypes.contains ty := by
  by_cases h1 : ty = "data_table" <;> by_cases h2 : ty = "bar_chart" <;>
    by_cases h3 : ty = "pie_chart" <;> by_cases h4 : ty = "line_chart" <;>
    simp_all [chartBlockTypes, List.contains]

theorem totalProblems_nil : total_problems [] = 0 := rfl

theorem totalProblems_cons (b : QuestionBlock) (bs : List QuestionBlock) :
    total_problems (b :: bs) =
      (if chartBlockTypes.contains b.type then 0 else b.count.getD 0) +
        total_problems bs := by
  by_cases h1 : b.type = "data_table" <;> by_cases h2 : b.type = "bar_chart" <;>
    by_cases h3 : b.type = "pie_chart" <;> by_cases h4 : b.type = "line_chart" <;>
    simp_all [total_problems, List.filter_cons, chartBlockTypes, List.contains]

theorem specTotal_cons (b : QuestionBlock) (bs : List QuestionBlock) :
    spec_expected_total (b :: bs) =
      (if chartBlockTypes.contains b.type then 0
       else match b.sub_blocks with
         | some subs => (subs.map (fun sb => sb.count.getD 0)).sum
         | none => b.count.getD 0) +
        spec_expected_total bs := by
  by_cases h : b.type ∈ chartBlockTypes
  · have h' : chartBlockTypes.contains b.type = true := by
      simp [chartBlockTypes, List.contains] at h ⊢
      rcases h with h | h | h | h <;> simp [h]
    simp [spec_expected_total, List.filter_cons, h, h']
  · have h' : chartBlockTypes.contains b.type = false := by
      simp [chartBlockTypes, List.contains] at h ⊢
      tauto
    simp [spec_expected_total, List.filter_cons, h, h']

/-- Claim C1, counterexample: for a non-chart block carrying
`sub_blocks` with counts 2 and 3 and no top-level `count`, line 141
computes 0, not the sum 5 of the sub-blocks' counts, so the claimed
equality fails. -/
theorem c1_counterexample :
    total_problems [QuestionBlock.mk "short_answer" none none none none none
        (some [.mk "word_problem" (some 2) none none none none none,
               .mk "short_answer" (some 3) none none none none none])] ≠
      spec_expected_total [QuestionBlock.mk "short_answer" none none none none
        none
        (some [.mk "word_problem" (some 2) none none none none none,
               .mk "short_answer" (some 3) none none none none none])] ∧
    total_problems [QuestionBlock.mk "short_answer" none none none none none
        (some [.mk "word_problem" (some 2) none none none none none,
               .mk "short_answer" (some 3) none none none none none])] = 0 ∧
    spec_expected_total [QuestionBlock.mk "short_answer" none none none none
        none
        (some [.mk "word_problem" (some 2) none none none none none,
               .mk "short_answer" (some 3) none none none none none])] = 5 := by
  refine ⟨?_, rfl, rfl⟩
  decide

/-- Claim C1 (amended): the total expected question count of
`generate_worksheet` (line 141) is the sum of the top-level `count`
fields (absent counts as 0) over the blocks whose type is not a
chart/table type; nested `sub_blocks` are ignored entirely, and the
value agrees with the spec's formula exactly when no block carries
`sub_blocks`. -/
theorem c1_amended :
    (∀ (blocks : List QuestionBlock) (b : QuestionBlock),
      total_problems (blocks ++ [b]) =
        total_problems blocks +
          (if chartBlockTypes.contains b.type then 0 else b.count.getD 0)) ∧
    (∀ blocks : List QuestionBlock,
      total_problems blocks =
        total_problems (blocks.map QuestionBlock.dropSubBlocks)) ∧
    (∀ blocks : List QuestionBlock, (∀ b ∈ blocks, b.sub_blocks = none) →
      total_problems blocks = spec_expected_total blocks) := by
  refine ⟨?_, ?_, ?_⟩
  · intro blocks b
    induction blocks with
    | nil => simp [totalProblems_cons, totalProblems_nil]
    | cons x xs ih =>
      rw [List.cons_append, totalProblems_cons, ih, totalProblems_cons]
      omega
  · intro blocks
    induction blocks with
    | nil => rfl
    | cons x xs ih =>
      rw [List.map_cons, totalProblems_cons, totalProblems_cons, ih]
      cases x with
      | mk t c s tn o d sb => rfl
  · intro blocks h
    induction blocks with
    | nil => rfl
    | cons x xs ih =>
      rw [totalProblems_cons, specTotal_cons,
        ih (fun b hb => h b (List.mem_cons_of_mem _ hb)),
        h x (List.mem_cons_self _ _)]

/-- Claim C1 witness: instantiate the amended theorem's conditional part
at a concrete block list without `sub_blocks`. -/
theorem c1_amended_witness :
    total_problems [QuestionBlock.mk "short_answer" (some 5) none none none
        none none, QuestionBlock.mk "pie_chart" none none none none none none] =
      spec_expected_total [QuestionBlock.mk "short_answer" (some 5) none none
        none none none,
        QuestionBlock.mk "pie_chart" none none none none none none] :=
  c1_amended.2.2 _ (by intro b hb; fin_cases hb <;> rfl)

/-- Claim C2, evaluation at the failing input: `clean_json_response`
calls `startswith` on the list returned by `split('\n')` (line 26), so
every fence-wrapped response raises `AttributeError` instead of having
its fence stripped — contradicting the adjacent source comment, which
says the first string of the list is checked. -/
theorem c2_fenced_response_raises :
    clean_json_response "```json\n\x7b\"score\": 5\x7d\n```" =
      .error (.other "AttributeError: list object has no attribute startswith") :=
  rfl

/-- Claim C4, counterexample: an HTTP-200 response whose JSON body lacks
the `choices` key makes `analyze_syllabus` and `generate_worksheet`
raise an uncaught `KeyError` instead of returning `None`. -/
theorem c4_counterexample :
    analyze_syllabus 3 "Math" "syllabus text" true "2026-01-01T00:00:00"
        (.response 200 "\x7b\x7d") [] = .error (.other "KeyError: choices") ∧
    generate_worksheet 3 "Title" [] "Math" (some ⟨[]⟩) "TPL"
        (.response 200 "\x7b\x7d") [] = .error (.other "KeyError: choices") :=
  ⟨rfl, rfl⟩

/-- Claim C5, counterexample: the syllabus-analysis path performs no
brace narrowing, so a content string `The JSON: {"topics": []} done`
fails to parse and `analyze_syllabus` returns `None` — the claimed
prose tolerance does not hold for the syllabus pipeline. -/
theorem c5_counterexample :
    analyze_syllabus 3 "Math" "text" false "T0" (.response 200 c5Body) [] =
      .ok (none, []) :=
  rfl

/-! ### Lemmas on the vision retry loop -/

theorem exceptOk_bind {α β : Type} (a : α) (f : α → Except PyExn β) :
    (Except.ok a >>= f) = f a := rfl

theorem exceptErr_bind {α β : Type} (e : PyExn) (f : α → Except PyExn β) :
    ((Except.error e : Except PyExn α) >>= f) = .error e := rfl

theorem jLookup_any {fs : List (String × JVal)} {k : String} {v : JVal}
    (h : jLookup fs k = some v) : fs.any (fun p => p.1 == k) = true := by
  induction fs with
  | nil => simp [jLookup] at h
  | cons p ps ih =>
    simp only [jLookup, List.find?_cons] at h
    by_cases hk : p.1 == k
    · simp [hk]
    · simp only [hk] at h
      simp only [List.any_cons, hk, Bool.false_or]
      exact ih h

theorem attemptBody_exn (g : Int) (s : String) (i : Nat) :
    attemptBody .exn g s i = .error .requestException := rfl

theorem attemptBody_http {st : Nat} (body : String) (g : Int) (s : String)
    (i : Nat) (h : 400 ≤ st ∧ st < 600) :
    attemptBody (.response st body) g s i = .error .requestException := by
  unfold attemptBody
  simp [h]

theorem attemptBody_noRaise {st : Nat} (body : String) (g : Int) (s : String)
    (i : Nat) (h : ¬(400 ≤ st ∧ st < 600)) :
    attemptBody (.response st body) g s i =
      (json_loads body >>= fun result => handleResult result g s i) := by
  unfold attemptBody
  simp [h]

theorem handleResult_obj (fs : List (String × JVal)) (g : Int) (s : String)
    (i : Nat) :
    handleResult (.obj fs) g s i =
      if fs.any (fun p => p.1 == "error") then handleErrorBody (.obj fs) i
      else handleSuccessBody (.obj fs) g s := by
  unfold handleResult
  simp [pyContains, exceptOk_bind]

theorem handleErrorBody_code {fs efs : List (String × JVal)} {code : JVal}
    (i : Nat) (herr : jLookup fs "error" = some (.obj efs))
    (hcode : jLookup efs "code" = some code) :
    handleErrorBody (.obj fs) i =
      if (pyEqInt code 502 || pyEqInt code 503 ||
          pyEqInt code 429) && decide (i < max_retries - 1) then
        .ok .retrySleep
      else .ok (.ret none) := by
  unfold handleErrorBody
  simp only [pySubscriptStr, herr, exceptOk_bind, pyDictGet, hcode,
    Option.getD_some]
  split <;> rfl

theorem handleSuccessBody_noChoices {fs : List (String × JVal)} (g : Int)
    (s : String) (h : fs.any (fun p => p.1 == "choices") = false) :
    handleSuccessBody (.obj fs) g s = .ok (.ret none) := by
  unfold handleSuccessBody
  simp [pyContains, exceptOk_bind, h]
  rfl

theorem gradeAux_first_ret (resp : Nat → TransportResult) (g : Int)
    (s : String) (rem : Nat) (r : Option JVal)
    (h : attemptBody (resp 0) g s 0 = .ok (.ret r)) :
    gradeAux resp g s 0 (rem + 1) = (r, [.attempt 0]) := by
  rw [gradeAux, h]

theorem gradeAux_first_nonRetryErr (resp : Nat → TransportResult) (g : Int)
    (s : String) (rem : Nat) (e : PyExn)
    (h : attemptBody (resp 0) g s 0 = .error e) (hne : e ≠ .requestException) :
    gradeAux resp g s 0 (rem + 1) = (none, [.attempt 0]) := by
  rw [gradeAux, h]
  cases e with
  | requestException => exact absurd rfl hne
  | jsonDecodeError => rfl
  | other m => rfl

theorem gradeAux_zero_retry (resp : Nat → TransportResult) (g : Int)
    (s : String)
    (h : attemptBody (resp 0) g s 0 = .ok .retrySleep ∨
      attemptBody (resp 0) g s 0 = .error .requestException) :
    ∃ r evs, gradeAux resp g s 0 3 = (r, .attempt 0 :: .sleep 2 :: evs) ∧
      gradeAux resp g s 1 2 = (r, evs) := by
  rcases hgr : gradeAux resp g s 1 2 with ⟨r, evs⟩
  refine ⟨r, evs, ?_, rfl⟩
  show gradeAux resp g s 0 (2 + 1) = _
  rcases h with h | h
  · rw [gradeAux, h, hgr]
  · rw [gradeAux, h]
    simp only [max_retries]
    norm_num
    rw [hgr]
    exact ⟨rfl, rfl⟩

theorem gradeAux_attempts_le (resp : Nat → TransportResult) (g : Int)
    (s : String) : ∀ (rem i : Nat),
    ((gradeAux resp g s i rem).2.countP
      (fun e => match e with | .attempt _ => true | _ => false)) ≤ rem := by
  intro rem
  induction rem with
  | zero => intro i; simp [gradeAux]
  | succ rem ih =>
    intro i
    cases hb : attemptBody (resp i) g s i with
    | ok bo =>
      cases bo with
      | ret r => rw [gradeAux, hb]; simp [List.countP_cons]
      | retrySleep =>
        rw [gradeAux, hb]
        rcases hgr : gradeAux resp g s (i + 1) rem with ⟨r, evs⟩
        have := ih (i + 1)
        rw [hgr] at this
        simp [List.countP_cons] at this ⊢
        omega
    | error e =>
      cases e with
      | requestException =>
        rw [gradeAux, hb]
        by_cases hi : i < max_retries - 1
        · rw [if_pos hi]
          rcases hgr : gradeAux resp g s (i + 1) rem with ⟨r, evs⟩
          have := ih (i + 1)
          rw [hgr] at this
          simp [List.countP_cons] at this ⊢
          omega
        · rw [if_neg hi]; simp [List.countP_cons]
      | jsonDecodeError => rw [gradeAux, hb]; simp [List.countP_cons]
      | other m => rw [gradeAux, hb]; simp [List.countP_cons]

/-- Claim C3, counterexample: an HTTP response with status code 400 — an
upstream error that is neither a transport failure nor an in-body error
code in {429, 502, 503} — is retried twice with 2-second delays
(`raise_for_status` turns any status in [400, 600) into an `HTTPError`,
which the `RequestException` handler retries), instead of failing
immediately with zero retries as claimed. -/
theorem c3_counterexample :
    grade_worksheet_vision 3 "Math" "Worksheet" [] none
        (fun _ => .response 400 "Bad Request") =
      .ok (none, [.attempt 0, .sleep 2, .attempt 1, .sleep 2, .attempt 2]) ∧
    [Event.attempt 0, .sleep 2, .attempt 1, .sleep 2, .attempt 2] ≠
      [Event.attempt 0] :=
  ⟨rfl, by decide⟩

/-- Claim C3 (amended): `grade_worksheet_vision` performs up to 3
attempts; a 2-second sleep followed by the next attempt happens exactly
when an attempt raises a `requests` exception — a transport error or
`raise_for_status` on any HTTP status in [400, 600) — or when the body
carries an in-body error code in {502, 503, 429}; every other error
outcome of the first attempt (an in-body error code outside that set, a
non-JSON success body, a body without `error` and without `choices`)
returns failure immediately with zero further attempts. -/
theorem c3_amended (g : Int) (s t : String) (imgs : List ImageData)
    (ak : Option String) (resp : Nat → TransportResult) :
    (resp 0 = .exn →
      ∃ r evs, grade_worksheet_vision g s t imgs ak resp =
          .ok (r, .attempt 0 :: .sleep 2 :: evs) ∧
        gradeAux resp g s 1 2 = (r, evs)) ∧
    (∀ st body, resp 0 = .response st body → 400 ≤ st → st < 600 →
      ∃ r evs, grade_worksheet_vision g s t imgs ak resp =
          .ok (r, .attempt 0 :: .sleep 2 :: evs) ∧
        gradeAux resp g s 1 2 = (r, evs)) ∧
    (∀ st body fs efs code, resp 0 = .response st body →
      ¬(400 ≤ st ∧ st < 600) → json_loads body = .ok (.obj fs) →
      jLookup fs "error" = some (.obj efs) →
      jLookup efs "code" = some code →
      (pyEqInt code 502 || pyEqInt code 503 || pyEqInt code 429) = true →
      ∃ r evs, grade_worksheet_vision g s t imgs ak resp =
          .ok (r, .attempt 0 :: .sleep 2 :: evs) ∧
        gradeAux resp g s 1 2 = (r, evs)) ∧
    (∀ st body fs efs code, resp 0 = .response st body →
      ¬(400 ≤ st ∧ st < 600) → json_loads body = .ok (.obj fs) →
      jLookup fs "error" = some (.obj efs) →
      jLookup efs "code" = some code →
      (pyEqInt code 502 || pyEqInt code 503 || pyEqInt code 429) = false →
      grade_worksheet_vision g s t imgs ak resp = .ok (none, [.attempt 0])) ∧
    (∀ st body, resp 0 = .response st body → ¬(400 ≤ st ∧ st < 600) →
      json_loads body = .error .jsonDecodeError →
      grade_worksheet_vision g s t imgs ak resp = .ok (none, [.attempt 0])) ∧
    (∀ st body fs, resp 0 = .response st body → ¬(400 ≤ st ∧ st < 600) →
      json_loads body = .ok (.obj fs) →
      fs.any (fun p => p.1 == "error") = false →
      fs.any (fun p => p.1 == "choices") = false →
      grade_worksheet_vision g s t imgs ak resp = .ok (none, [.attempt 0])) ∧
    (∀ r evs, grade_worksheet_vision g s t imgs ak resp = .ok (r, evs) →
      (evs.countP
        (fun e => match e with | .attempt _ => true | _ => false)) ≤
        max_retries) := by
  have hwrap : grade_worksheet_vision g s t imgs ak resp =
      .ok (gradeAux resp g s 0 3) := rfl
  refine ⟨?_, ?_, ?_, ?_, ?_, ?_, ?_⟩
  · intro h0
    obtain ⟨r, evs, h1, h2⟩ := gradeAux_zero_retry resp g s
      (Or.inr (by rw [h0]; rfl))
    exact ⟨r, evs, by rw [hwrap, h1], h2⟩
  · intro st body h0 h4 h6
    obtain ⟨r, evs, h1, h2⟩ := gradeAux_zero_retry resp g s
      (Or.inr (by rw [h0]; exact attemptBody_http body g s 0 ⟨h4, h6⟩))
    exact ⟨r, evs, by rw [hwrap, h1], h2⟩
  · intro st body fs efs code h0 hst hparse herr hcode hret
    have hb : attemptBody (resp 0) g s 0 = .ok .retrySleep := by
      rw [h0, attemptBody_noRaise body g s 0 hst, hparse, exceptOk_bind,
        handleResult_obj, if_pos (jLookup_any herr),
        handleErrorBody_code 0 herr hcode, if_pos]
      rw [hret]
      rfl
    obtain ⟨r, evs, h1, h2⟩ := gradeAux_zero_retry resp g s (Or.inl hb)
    exact ⟨r, evs, by rw [hwrap, h1], h2⟩
  · intro st body fs efs code h0 hst hparse herr hcode hret
    have hb : attemptBody (resp 0) g s 0 = .ok (.ret none) := by
      rw [h0, attemptBody_noRaise body g s 0 hst, hparse, exceptOk_bind,
        handleResult_obj, if_pos (jLookup_any herr),
        handleErrorBody_code 0 herr hcode, if_neg]
      rw [hret]
      simp
    rw [hwrap, gradeAux_first_ret resp g s 2 none hb]
  · intro st body h0 hst hparse
    have hb : attemptBody (resp 0) g s 0 = .error .jsonDecodeError := by
      rw [h0, attemptBody_noRaise body g s 0 hst, hparse, exceptErr_bind]
    rw [hwrap, gradeAux_first_nonRetryErr resp g s 2 _ hb (by simp)]
  · intro st body fs h0 hst hparse herr hch
    have hb : attemptBody (resp 0) g s 0 = .ok (.ret none) := by
      rw [h0, attemptBody_noRaise body g s 0 hst, hparse, exceptOk_bind,
        handleResult_obj, herr]
      simp only [Bool.false_eq_true, if_false]
      exact handleSuccessBody_noChoices g s hch
    rw [hwrap, gradeAux_first_ret resp g s 2 none hb]
  · intro r evs hrun
    rw [hwrap] at hrun
    have := gradeAux_attempts_le resp g s 3 0
    have heq : gradeAux resp g s 0 3 = (r, evs) := Except.ok.inj hrun
    rw [heq] at this
    exact this

/-- Claim C3 witness: the amended theorem applied at concrete inputs —
an in-body error code 400 fails with zero retries, while a transport
error is retried after a 2-second sleep. -/
theorem c3_amended_witness :
    grade_worksheet_vision 3 "Math" "W" [] none
        (fun _ => .response 200 "\x7b\"error\": \x7b\"code\": 400\x7d\x7d") =
      .ok (none, [.attempt 0]) ∧
    (∃ r evs, grade_worksheet_vision 3 "Math" "W" [] none (fun _ => .exn) =
        .ok (r, .attempt 0 :: .sleep 2 :: evs) ∧
      gradeAux (fun _ => .exn) 3 "Math" 1 2 = (r, evs)) := by
  constructor
  · exact (c3_amended 3 "Math" "W" [] none _).2.2.2.1 200 _
      [("error", .obj [("code", .num 400)])] [("code", .num 400)] (.num 400)
      rfl (by omega) (by rfl) (by rfl) (by rfl) (by rfl)
  · exact (c3_amended 3 "Math" "W" [] none _).1 rfl

/-! ### Totality of the vision grader -/

theorem jLookup_setKey_self (fs : List (String × JVal)) (k : String)
    (v : JVal) : jLookup (setKey fs k v) k = some v := by
  induction fs with
  | nil => simp [setKey, jLookup, List.find?]
  | cons p ps ih =>
    rcases p with ⟨k', v'⟩
    by_cases h : k' == k
    · simp [setKey, h, jLookup, List.find?]
    · simp only [setKey, h, Bool.false_eq_true, if_false]
      simp only [jLookup, List.find?_cons, h] at ih ⊢
      exact ih

theorem handleErrorBody_no_some (result : JVal) (i : Nat) (d : JVal) :
    handleErrorBody result i ≠ .ok (.ret (some d)) := by
  intro h
  unfold handleErrorBody at h
  obtain ⟨errVal, _, h⟩ := exceptBind_ok h
  obtain ⟨m, _, h⟩ := exceptBind_ok h
  obtain ⟨code, _, h⟩ := exceptBind_ok h
  split at h <;> simp [Pure.pure, Except.pure] at h

theorem handleSuccessBody_metadata {result : JVal} {g : Int} {s : String}
    {d : JVal} (h : handleSuccessBody result g s = .ok (.ret (some d))) :
    hasVisionMetadata g s d := by
  unfold handleSuccessBody at h
  obtain ⟨hc, _, h⟩ := exceptBind_ok h
  cases hc with
  | true =>
    simp only [Bool.not_true, Bool.false_eq_true, if_false] at h
    obtain ⟨cs, _, h⟩ := exceptBind_ok h
    obtain ⟨n, _, h⟩ := exceptBind_ok h
    by_cases hn : n == 0
    · rw [if_pos hn] at h
      simp [Pure.pure, Except.pure] at h
    · rw [if_neg hn] at h
      obtain ⟨raw, _, h⟩ := exceptBind_ok h
      obtain ⟨rawS, _, h⟩ := exceptBind_ok h
      obtain ⟨cleaned, _, h⟩ := exceptBind_ok h
      obtain ⟨gd, _, h⟩ := exceptBind_ok h
      obtain ⟨u, _, h⟩ := exceptBind_ok h
      obtain ⟨tt, _, h⟩ := exceptBind_ok h
      obtain ⟨pt, _, h⟩ := exceptBind_ok h
      obtain ⟨ct, _, h⟩ := exceptBind_ok h
      obtain ⟨gd2, hset, h⟩ := exceptBind_ok h
      have hd : gd2 = d := by
        simpa [Pure.pure, Except.pure] using h
      cases gd with
      | obj gfs =>
        simp only [pySetItem] at hset
        have hgd2 : gd2 = .obj (setKey gfs "metadata"
            (JVal.obj [("model", .str visionModelId), ("tokens_used", tt),
              ("prompt_tokens", pt), ("completion_tokens", ct),
              ("grade_level", .num g), ("subject", .str s)])) :=
          (Except.ok.inj hset).symm
        refine ⟨[("model", .str visionModelId), ("tokens_used", tt),
          ("prompt_tokens", pt), ("completion_tokens", ct),
          ("grade_level", .num g), ("subject", .str s)], ?_, rfl, rfl, rfl⟩
        rw [← hd, hgd2]
        exact jLookup_setKey_self gfs "metadata" _
      | null => simp [pySetItem] at hset
      | bool b => simp [pySetItem] at hset
      | num m => simp [pySetItem] at hset
      | str st => simp [pySetItem] at hset
      | arr xs => simp [pySetItem] at hset
  | false =>
    simp only [Bool.not_false, if_true] at h
    simp [Pure.pure, Except.pure] at h

theorem attemptBody_ret_some {tr : TransportResult} {g : Int} {s : String}
    {i : Nat} {d : JVal} (h : attemptBody tr g s i = .ok (.ret (some d))) :
    hasVisionMetadata g s d := by
  cases tr with
  | exn => simp [attemptBody] at h
  | response st body =>
    by_cases hst : 400 ≤ st ∧ st < 600
    · rw [attemptBody_http body g s i hst] at h; simp at h
    · rw [attemptBody_noRaise body g s i hst] at h
      obtain ⟨result, _, h⟩ := exceptBind_ok h
      unfold handleResult at h
      obtain ⟨he, _, h⟩ := exceptBind_ok h
      cases he with
      | true =>
        rw [if_pos rfl] at h
        exact absurd h (handleErrorBody_no_some result i d)
      | false =>
        rw [if_neg (by simp)] at h
        exact handleSuccessBody_metadata h

theorem gradeAux_result (resp : Nat → TransportResult) (g : Int)
    (s : String) : ∀ (rem i : Nat),
    (gradeAux resp g s i rem).1 = none ∨
      ∃ d, (gradeAux resp g s i rem).1 = some d ∧ hasVisionMetadata g s d := by
  intro rem
  induction rem with
  | zero => intro i; left; rfl
  | succ rem ih =>
    intro i
    cases hb : attemptBody (resp i) g s i with
    | ok bo =>
      cases bo with
      | ret r =>
        rw [gradeAux, hb]
        cases r with
        | none => left; rfl
        | some d => right; exact ⟨d, rfl, attemptBody_ret_some hb⟩
      | retrySleep =>
        rw [gradeAux, hb]
        rcases hgr : gradeAux resp g s (i + 1) rem with ⟨r, evs⟩
        have := ih (i + 1)
        rw [hgr] at this
        simpa using this
    | error e =>
      cases e with
      | requestException =>
        rw [gradeAux, hb]
        by_cases hi : i < max_retries - 1
        · rw [if_pos hi]
          rcases hgr : gradeAux resp g s (i + 1) rem with ⟨r, evs⟩
          have := ih (i + 1)
          rw [hgr] at this
          simpa using this
        · rw [if_neg hi]; left; rfl
      | jsonDecodeError => rw [gradeAux, hb]; left; rfl
      | other m => rw [gradeAux, hb]; left; rfl

/-- Claim C10: for every grade, subject, title, image list, answer key
and upstream response sequence, `grade_worksheet_vision` is total at its
public interface: no exception escapes (the result is always
`Except.ok`), and the value is either `None` or a parsed grading
dictionary carrying the injected `metadata` block with the call's grade
level, subject and model identifier. -/
theorem c10_vision_totality (g : Int) (s t : String) (imgs : List ImageData)
    (ak : Option String) (resp : Nat → TransportResult) :
    ∃ r evs, grade_worksheet_vision g s t imgs ak resp = .ok (r, evs) ∧
      (r = none ∨ ∃ d, r = some d ∧ hasVisionMetadata g s d) := by
  rcases hgr : gradeAux resp g s 0 max_retries with ⟨r, evs⟩
  refine ⟨r, evs, ?_, ?_⟩
  · rw [show grade_worksheet_vision g s t imgs ak resp =
      .ok (gradeAux resp g s 0 max_retries) from rfl, hgr]
  · have := gradeAux_result resp g s max_retries 0
    rw [hgr] at this
    exact this

theorem startsWith_self_append (p d : List Char) :
    startsWithL p (p ++ d) = true := by
  induction p with
  | nil => rfl
  | cons c cs ih => simp [startsWithL, ih]

theorem pieId_data (n : Nat) :
    ("piechart_" ++ pyStrNat n).data = "piechart_".data ++ natDecimal n := rfl

theorem lineId_data (n : Nat) :
    ("linechart_" ++ pyStrNat n).data = "linechart_".data ++ natDecimal n := rfl

theorem startsWith_pie_pie (n : Nat) :
    startsWithL "piechart_".data ("piechart_" ++ pyStrNat n).data = true := by
  rw [pieId_data]; exact startsWith_self_append _ _

theorem startsWith_line_line (n : Nat) :
    startsWithL "linechart_".data ("linechart_" ++ pyStrNat n).data = true := by
  rw [lineId_data]; exact startsWith_self_append _ _

theorem startsWith_pie_line (n : Nat) :
    startsWithL "piechart_".data ("linechart_" ++ pyStrNat n).data = false := rfl

theorem startsWith_line_pie (n : Nat) :
    startsWithL "linechart_".data ("piechart_" ++ pyStrNat n).data = false := rfl

theorem pieId_inj {a b : Nat}
    (h : "piechart_" ++ pyStrNat a = "piechart_" ++ pyStrNat b) : a = b := by
  have hd := congrArg String.data h
  rw [pieId_data, pieId_data] at hd
  exact natDecimal_inj (List.append_cancel_left hd)

theorem lineId_inj {a b : Nat}
    (h : "linechart_" ++ pyStrNat a = "linechart_" ++ pyStrNat b) : a = b := by
  have hd := congrArg String.data h
  rw [lineId_data, lineId_data] at hd
  exact natDecimal_inj (List.append_cancel_left hd)

theorem pieId_ne_lineId (a b : Nat) :
    "piechart_" ++ pyStrNat a ≠ "linechart_" ++ pyStrNat b := by
  intro h
  have := congrArg (fun s => startsWithL "piechart_".data s.data) h
  rw [show (fun s => startsWithL "piechart_".data s.data)
      ("piechart_" ++ pyStrNat a) = true from startsWith_pie_pie a,
    show (fun s => startsWithL "piechart_".data s.data)
      ("linechart_" ++ pyStrNat b) = false from startsWith_pie_line b] at this
  simp at this

theorem processAux_chartIds (syll : SyllabusData) :
    ∀ (blocks : List QuestionBlock) (idx : Nat) (st : GenLoopState),
    (processBlocksAux syll idx st blocks).chartIds =
      st.chartIds ++ genIds st.counter.pie st.counter.line blocks := by
  intro blocks
  induction blocks with
  | nil => intro idx st; simp [processBlocksAux, genIds]
  | cons b bs ih =>
    intro idx st
    rw [processBlocksAux, ih]
    by_cases h1 : b.type = "pie_chart"
    · have hm : ("pie_chart" : String) ∈ chartBlockTypes := by decide
      simp [processBlock, renderChartSection, h1, hm, genIds,
        show ("pie_chart" : String) ≠ "bar_chart" from by decide]
    · by_cases h2 : b.type = "line_chart"
      · have hm : ("line_chart" : String) ∈ chartBlockTypes := by decide
        simp [processBlock, renderChartSection, h1, h2, hm, genIds,
          show ("line_chart" : String) ≠ "bar_chart" from by decide,
          show ("line_chart" : String) ≠ "pie_chart" from by decide]
      · by_cases h3 : b.type ∈ chartBlockTypes
        · simp only [processBlock, renderChartSection, h1, h2, h3, genIds,
            if_true, if_pos]
          by_cases h4 : b.type = "bar_chart" <;>
            simp [h4, h1, h2, h3, genIds,
              show ("bar_chart" : String) ∈ chartBlockTypes from by decide]
        · simp [processBlock, h1, h2, h3, genIds]

theorem bool_neg_of_rfl {b : Bool} (h : b = false) : ¬b = true := by
  simp [h]

theorem genIds_filter_pie : ∀ (bs : List QuestionBlock) (p l : Nat),
    (genIds p l bs).filter (fun s => startsWithL "piechart_".data s.data) =
      (List.range' p ((bs.filter (fun b => b.type == "pie_chart")).length)).map
        (fun n => "piechart_" ++ pyStrNat n) := by
  intro bs
  induction bs with
  | nil => intro p l; rfl
  | cons b bs ih =>
    intro p l
    by_cases h1 : b.type = "pie_chart"
    · rw [genIds, if_pos h1]
      have hpos : List.filter (fun s => startsWithL "piechart_".data s.data)
          (("piechart_" ++ pyStrNat p) :: genIds (p + 1) l bs) =
          ("piechart_" ++ pyStrNat p) :: List.filter
            (fun s => startsWithL "piechart_".data s.data)
            (genIds (p + 1) l bs) :=
        List.filter_cons_of_pos (startsWith_pie_pie p)
      have hkeep : List.filter (fun b => b.type == "pie_chart") (b :: bs) =
          b :: List.filter (fun b => b.type == "pie_chart") bs :=
        List.filter_cons_of_pos (by simp [h1])
      rw [hpos, ih, hkeep, List.length_cons, List.range'_succ, List.map_cons]
    · by_cases h2 : b.type = "line_chart"
      · rw [genIds, if_neg h1, if_pos h2]
        have hneg : List.filter
            (fun s => startsWithL "piechart_".data s.data)
            (("linechart_" ++ pyStrNat l) :: genIds p (l + 1) bs) =
            List.filter (fun s => startsWithL "piechart_".data s.data)
              (genIds p (l + 1) bs) :=
          List.filter_cons_of_neg (bool_neg_of_rfl (startsWith_pie_line l))
        have hdrop : List.filter (fun b => b.type == "pie_chart") (b :: bs) =
            List.filter (fun b => b.type == "pie_chart") bs :=
          List.filter_cons_of_neg (by simp [h1])
        rw [hneg, ih, hdrop]
      · rw [genIds, if_neg h1, if_neg h2, ih]
        have hdrop : List.filter (fun b => b.type == "pie_chart") (b :: bs) =
            List.filter (fun b => b.type == "pie_chart") bs :=
          List.filter_cons_of_neg (by simp [h1])
        rw [hdrop]

theorem genIds_filter_line : ∀ (bs : List QuestionBlock) (p l : Nat),
    (genIds p l bs).filter (fun s => startsWithL "linechart_".data s.data) =
      (List.range' l
          ((bs.filter (fun b => b.type == "line_chart")).length)).map
        (fun n => "linechart_" ++ pyStrNat n) := by
  intro bs
  induction bs with
  | nil => intro p l; rfl
  | cons b bs ih =>
    intro p l
    by_cases h1 : b.type = "pie_chart"
    · rw [genIds, if_pos h1]
      have hneg : List.filter (fun s => startsWithL "linechart_".data s.data)
          (("piechart_" ++ pyStrNat p) :: genIds (p + 1) l bs) =
          List.filter (fun s => startsWithL "linechart_".data s.data)
            (genIds (p + 1) l bs) :=
        List.filter_cons_of_neg (bool_neg_of_rfl (startsWith_line_pie p))
      have hdrop : List.filter (fun b => b.type == "line_chart") (b :: bs) =
          List.filter (fun b => b.type == "line_chart") bs :=
        List.filter_cons_of_neg (by simp [h1, show b.type ≠ "line_chart" from by rw [h1]; decide])
      rw [hneg, ih, hdrop]
    · by_cases h2 : b.type = "line_chart"
      · rw [genIds, if_neg h1, if_pos h2]
        have hpos : List.filter
            (fun s => startsWithL "linechart_".data s.data)
            (("linechart_" ++ pyStrNat l) :: genIds p (l + 1) bs) =
            ("linechart_" ++ pyStrNat l) :: List.filter
              (fun s => startsWithL "linechart_".data s.data)
              (genIds p (l + 1) bs) :=
          List.filter_cons_of_pos (startsWith_line_line l)
        have hkeep : List.filter (fun b => b.type == "line_chart") (b :: bs) =
            b :: List.filter (fun b => b.type == "line_chart") bs :=
          List.filter_cons_of_pos (by simp [h2])
        rw [hpos, ih, hkeep, List.length_cons, List.range'_succ, List.map_cons]
      · rw [genIds, if_neg h1, if_neg h2, ih]
        have hdrop : List.filter (fun b => b.type == "line_chart") (b :: bs) =
            List.filter (fun b => b.type == "line_chart") bs :=
          List.filter_cons_of_neg (by simp [h2])
        rw [hdrop]

theorem genIds_mem {s : String} : ∀ (bs : List QuestionBlock) (p l : Nat),
    s ∈ genIds p l bs →
    (∃ k, p ≤ k ∧ s = "piechart_" ++ pyStrNat k) ∨
    (∃ k, l ≤ k ∧ s = "linechart_" ++ pyStrNat k) := by
  intro bs
  induction bs with
  | nil => intro p l h; simp [genIds] at h
  | cons b bs ih =>
    intro p l h
    by_cases h1 : b.type = "pie_chart"
    · rw [genIds, if_pos h1] at h
      rcases List.mem_cons.mp h with h | h
      · exact Or.inl ⟨p, le_refl p, h⟩
      · rcases ih (p + 1) l h with ⟨k, hk, hs⟩ | ⟨k, hk, hs⟩
        · exact Or.inl ⟨k, by omega, hs⟩
        · exact Or.inr ⟨k, hk, hs⟩
    · by_cases h2 : b.type = "line_chart"
      · rw [genIds, if_neg h1, if_pos h2] at h
        rcases List.mem_cons.mp h with h | h
        · exact Or.inr ⟨l, le_refl l, h⟩
        · rcases ih p (l + 1) h with ⟨k, hk, hs⟩ | ⟨k, hk, hs⟩
          · exact Or.inl ⟨k, hk, hs⟩
          · exact Or.inr ⟨k, by omega, hs⟩
      · rw [genIds, if_neg h1, if_neg h2] at h
        exact ih p l h

theorem genIds_nodup : ∀ (bs : List QuestionBlock) (p l : Nat),
    (genIds p l bs).Nodup := by
  intro bs
  induction bs with
  | nil => intro p l; simp [genIds]
  | cons b bs ih =>
    intro p l
    by_cases h1 : b.type = "pie_chart"
    · rw [genIds, if_pos h1]
      refine List.nodup_cons.mpr ⟨?_, ih (p + 1) l⟩
      intro hmem
      rcases genIds_mem bs (p + 1) l hmem with ⟨k, hk, hs⟩ | ⟨k, hk, hs⟩
      · have := pieId_inj hs; omega
      · exact pieId_ne_lineId p k hs
    · by_cases h2 : b.type = "line_chart"
      · rw [genIds, if_neg h1, if_pos h2]
        refine List.nodup_cons.mpr ⟨?_, ih p (l + 1)⟩
        intro hmem
        rcases genIds_mem bs p (l + 1) hmem with ⟨k, hk, hs⟩ | ⟨k, hk, hs⟩
        · exact pieId_ne_lineId k l hs.symm
        · have := lineId_inj hs; omega
      · rw [genIds, if_neg h1, if_neg h2]; exact ih p l

/-- Claim C6: within one `generate_worksheet` invocation the integer
suffixes allocated to `pie_chart` identifiers are exactly `0, 1, 2, …`
in emission order, likewise for `line_chart` identifiers, regardless of
how chart blocks are interleaved with other blocks; and the full
identifier list contains no duplicate, so no two charts in one
worksheet share an identifier. -/
theorem c6_chart_id_uniqueness (syll : SyllabusData)
    (blocks : List QuestionBlock) :
    ((processBlocks syll blocks).chartIds.filter
        (fun s => startsWithL "piechart_".data s.data) =
      (List.range
          ((blocks.filter (fun b => b.type == "pie_chart")).length)).map
        (fun n => "piechart_" ++ pyStrNat n)) ∧
    ((processBlocks syll blocks).chartIds.filter
        (fun s => startsWithL "linechart_".data s.data) =
      (List.range
          ((blocks.filter (fun b => b.type == "line_chart")).length)).map
        (fun n => "linechart_" ++ pyStrNat n)) ∧
    (processBlocks syll blocks).chartIds.Nodup := by
  have hids : (processBlocks syll blocks).chartIds = genIds 0 0 blocks := by
    rw [processBlocks, processAux_chartIds]; rfl
  refine ⟨?_, ?_, ?_⟩
  · rw [hids, genIds_filter_pie, List.range_eq_range']
  · rw [hids, genIds_filter_line, List.range_eq_range']
  · rw [hids]; exact genIds_nodup blocks 0 0

/-! ### Subtopic lookup -/

theorem findAppend {α : Type} (p : α → Bool) (l₁ l₂ : List α) :
    (l₁ ++ l₂).find? p =
      match l₁.find? p with
      | some x => some x
      | none => l₂.find? p := by
  induction l₁ with
  | nil => simp
  | cons a l₁ ih =>
    by_cases h : p a
    · simp [List.find?_cons, h]
    · simp only [Bool.not_eq_true] at h
      simp [List.find?_cons, h, ih]

/-- Claim C7: for every loaded syllabus document and subtopic id,
`find_subtopic_by_id` returns the first subtopic with that id in the
order topics-then-subtopics (the head of the flattened scan), returns
`None` (without raising) when the id is absent, and the block's topic
name then falls back to the literal `"Practice Problems"`; on a match
the matching subtopic's name is used. -/
theorem c7_find_subtopic (s : SyllabusData) (i : String) :
    (find_subtopic_by_id s i =
      (s.topics.flatMap Topic.subtopics).find? (fun st => st.id == i)) ∧
    ((∀ st ∈ s.topics.flatMap Topic.subtopics, st.id ≠ i) →
      find_subtopic_by_id s i = none) ∧
    (∀ b : QuestionBlock, b.subtopic_id = some i →
      find_subtopic_by_id s i = none →
      resolveTopicName s b = "Practice Problems") ∧
    (∀ (b : QuestionBlock) (st0 : Subtopic), b.subtopic_id = some i →
      find_subtopic_by_id s i = some st0 →
      resolveTopicName s b = st0.name) := by
  have hflat : find_subtopic_by_id s i =
      (s.topics.flatMap Topic.subtopics).find? (fun st => st.id == i) := by
    rcases s with ⟨topics⟩
    induction topics with
    | nil => rfl
    | cons t ts ih =>
      show List.findSome? _ (t :: ts) = _
      rw [List.findSome?_cons]
      rw [show (⟨t :: ts⟩ : SyllabusData).topics.flatMap Topic.subtopics =
          t.subtopics ++ (⟨ts⟩ : SyllabusData).topics.flatMap Topic.subtopics
          from by simp]
      rw [findAppend]
      cases ht : t.subtopics.find? (fun st => st.id == i) with
      | some st => rfl
      | none => exact ih
  refine ⟨hflat, ?_, ?_, ?_⟩
  · intro habs
    rw [hflat, List.find?_eq_none]
    intro st hmem
    simp [habs st hmem]
  · intro b hb hnone
    simp only [resolveTopicName, hb, hnone]
  · intro b st0 hb hsome
    simp only [resolveTopicName, hb, hsome]

/-- Claim C7 witness: the lookup theorem applied to a concrete document —
an absent id yields `None` and the "Practice Problems" fallback, a
present id yields the subtopic's name. -/
theorem c7_witness :
    find_subtopic_by_id c7Syllabus "zz" = none ∧
    resolveTopicName c7Syllabus
      (QuestionBlock.mk "short_answer" none (some "zz") none none none none) =
      "Practice Problems" ∧
    resolveTopicName c7Syllabus
      (QuestionBlock.mk "short_answer" none (some "g1") none none none none) =
      "Shapes" :=
  ⟨(c7_find_subtopic c7Syllabus "zz").2.1 (by decide),
   (c7_find_subtopic c7Syllabus "zz").2.2.1 _ rfl
     ((c7_find_subtopic c7Syllabus "zz").2.1 (by decide)),
   (c7_find_subtopic c7Syllabus "g1").2.2.2 _ ⟨"g1", "Shapes"⟩ rfl rfl⟩

/-! ### Default-count mismatch -/

/-- Claim C9: a non-chart block without a `count` key renders exactly as
a block with `count = 1` renders (line 84 defaults the per-block
instruction count to 1, so the emitted instruction demands exactly one
question), while the surfaced total of line 141 counts the same block as
0 instead of 1 — the rendered instructions and the total disagree. -/
theorem c9_default_count_mismatch (syll : SyllabusData) (idx : Nat)
    (st : GenLoopState) (b : QuestionBlock)
    (hchart : chartBlockTypes.contains b.type = false)
    (hcount : b.count = none) :
    processBlock syll idx b st =
      processBlock syll idx (b.setCount (some 1)) st ∧
    total_problems [b] = 0 ∧
    total_problems [b.setCount (some 1)] = 1 := by
  rcases b with ⟨t, c, sid, tn, o, d, sb⟩
  simp only [QuestionBlock.count] at hcount
  subst hcount
  simp only [QuestionBlock.type] at hchart
  have hmem : t ∉ chartBlockTypes := by
    intro hm
    rw [show chartBlockTypes.contains t = true from by
      simp [chartBlockTypes, List.contains] at hm ⊢
      rcases hm with h | h | h | h <;> simp [h]] at hchart
    exact Bool.false_ne_true hchart.symm
  refine ⟨?_, ?_, ?_⟩
  · simp [processBlock, QuestionBlock.setCount, QuestionBlock.type, hmem,
      renderQuestionSection, resolveTopicName, QuestionBlock.count,
      QuestionBlock.subtopic_id, QuestionBlock.topic_name,
      QuestionBlock.options, QuestionBlock.difficulty]
  · rw [totalProblems_cons]
    simp [QuestionBlock.type, QuestionBlock.count, hchart, hmem,
      totalProblems_nil]
  · rw [totalProblems_cons]
    simp [QuestionBlock.setCount, QuestionBlock.type, QuestionBlock.count,
      hchart, hmem, totalProblems_nil]

/-- Claim C9 witness: a concrete `short_answer` block without `count`. -/
theorem c9_witness :
    processBlock ⟨[]⟩ 1
        (QuestionBlock.mk "short_answer" none none none none none none)
        ⟨⟨0, 0, 0⟩, [], []⟩ =
      processBlock ⟨[]⟩ 1
        ((QuestionBlock.mk "short_answer" none none none none none
          none).setCount (some 1)) ⟨⟨0, 0, 0⟩, [], []⟩ ∧
    total_problems
      [QuestionBlock.mk "short_answer" none none none none none none] = 0 ∧
    total_problems
      [(QuestionBlock.mk "short_answer" none none none none none
        none).setCount (some 1)] = 1 :=
  c9_default_count_mismatch ⟨[]⟩ 1 ⟨⟨0, 0, 0⟩, [], []⟩ _ rfl rfl

/-! ### Persistence round-trip -/

theorem storeGet_put (st : Store) (k : String) (v : JVal) :
    storeGet (storePut st k v) k = some v := by
  simp [storeGet, storePut, List.find?]

/-- Claim C8: whenever `analyze_syllabus` succeeds with persistence
enabled, a subsequent `load_analyzed_syllabus` for the same
`(grade, subject)` pair returns exactly the document that was stored and
returned — both derive the file path deterministically from the grade
and the case-folded subject. -/
theorem c8_roundtrip (grade : Int) (subject text now : String)
    (resp : TransportResult) (store : Store) (doc : JVal) (store' : Store)
    (h : analyze_syllabus grade subject text true now resp store =
      .ok (some doc, store')) :
    load_analyzed_syllabus grade subject store' = some doc := by
  cases resp with
  | exn => simp [analyze_syllabus] at h
  | response st body =>
    simp only [analyze_syllabus] at h
    by_cases hstat : (st == 200) = true
    · rw [if_pos hstat] at h
      obtain ⟨result, _, h⟩ := exceptBind_ok h
      obtain ⟨contentV, _, h⟩ := exceptBind_ok h
      obtain ⟨contentS, _, h⟩ := exceptBind_ok h
      obtain ⟨content, _, h⟩ := exceptBind_ok h
      cases hj : json_loads ⟨content⟩ with
      | error e => rw [hj] at h; simp [Pure.pure, Except.pure] at h
      | ok sdata =>
        rw [hj] at h
        obtain ⟨u, _, h⟩ := exceptBind_ok h
        obtain ⟨tt, _, h⟩ := exceptBind_ok h
        obtain ⟨sdata2, hset, h⟩ := exceptBind_ok h
        rw [if_pos trivial] at h
        obtain ⟨topics, _, h⟩ := exceptBind_ok h
        obtain ⟨y1, _, h⟩ := exceptBind_ok h
        obtain ⟨y2, _, h⟩ := exceptBind_ok h
        obtain ⟨store2, hstore2, h⟩ := exceptBind_ok h
        obtain ⟨z1, _, h⟩ := exceptBind_ok h
        obtain ⟨z2, _, h⟩ := exceptBind_ok h
        obtain ⟨z3, _, h⟩ := exceptBind_ok h
        have hpair : ((some sdata2 : Option JVal), store2) =
            ((some doc : Option JVal), store') := by
          simpa [Pure.pure, Except.pure] using h
        injection hpair with h1 h2
        injection h1 with h1
        have hstore2' : storePut store (syllabus_path grade subject) sdata2 =
            store2 := by
          simpa [Pure.pure, Except.pure] using hstore2
        rw [load_analyzed_syllabus, ← h2, ← hstore2', storeGet_put, h1]
    · rw [if_neg hstat] at h
      simp [Pure.pure, Except.pure] at h

set_option maxRecDepth 10000 in
/-- Claim C8 witness: the round-trip theorem applied to a concrete
successful analysis for grade 3 Math. -/
theorem c8_witness :
    load_analyzed_syllabus 3 "Math"
      [("syllabus/syllabus_grade3_math.json", c8Doc)] = some c8Doc :=
  c8_roundtrip 3 "Math" "txt" "T0" (.response 200 c8Body) [] c8Doc
    [("syllabus/syllabus_grade3_math.json", c8Doc)] rfl

/-! ### Failure surfacing -/

/-- Claim C4 (amended): `analyze_syllabus` and `generate_worksheet`
surface non-200 responses as `None` (and `analyze_syllabus` also
surfaces a content JSON-parse failure as `None`), and
`grade_worksheet_vision` never lets an exception escape for any input;
but an HTTP-200 body missing the expected `choices` key makes
`analyze_syllabus` and `generate_worksheet` raise an uncaught
`KeyError` instead of returning `None`. -/
theorem c4_amended :
    (∀ (g : Int) (subj txt now : String) (save : Bool) (st : Nat)
      (body : String) (store : Store), st ≠ 200 →
      analyze_syllabus g subj txt save now (.response st body) store =
        .ok (none, store)) ∧
    (∀ (g : Int) (t : String) (blocks : List QuestionBlock) (subj : String)
      (syll : SyllabusData) (tmpl : String) (st : Nat) (body : String)
      (ws : WStore), st ≠ 200 →
      generate_worksheet g t blocks subj (some syll) tmpl
        (.response st body) ws = .ok (none, ws)) ∧
    (∀ (g : Int) (subj txt now : String) (save : Bool) (body : String)
      (store : Store) (result : JVal) (c : String) (c2 : List Char)
      (e : PyExn),
      json_loads body = .ok result → extractContent result = .ok (.str c) →
      analyzerFenceStrip (stripL c.data) = .ok c2 →
      json_loads ⟨c2⟩ = .error e →
      analyze_syllabus g subj txt save now (.response 200 body) store =
        .ok (none, store)) ∧
    (∀ (g : Int) (s t : String) (imgs : List ImageData) (ak : Option String)
      (resp : Nat → TransportResult),
      ∃ r, grade_worksheet_vision g s t imgs ak resp = .ok r) ∧
    (∀ (g : Int) (subj txt now : String) (save : Bool) (store : Store),
      analyze_syllabus g subj txt save now (.response 200 "\x7b\x7d") store =
        .error (.other "KeyError: choices")) ∧
    (∀ (g : Int) (t : String) (blocks : List QuestionBlock) (subj : String)
      (syll : SyllabusData) (tmpl : String) (ws : WStore),
      generate_worksheet g t blocks subj (some syll) tmpl
        (.response 200 "\x7b\x7d") ws =
        .error (.other "KeyError: choices")) := by
  refine ⟨?_, ?_, ?_, ?_, ?_, ?_⟩
  · intro g subj txt now save st body store hst
    have hb : (st == 200) = false := by simp [hst]
    simp [analyze_syllabus, hb, Pure.pure, Except.pure]
  · intro g t blocks subj syll tmpl st body ws hst
    have hb : (st == 200) = false := by simp [hst]
    simp [generate_worksheet, hb, Pure.pure, Except.pure]
  · intro g subj txt now save body store result c c2 e hr hc hf hj
    simp only [analyze_syllabus, show ((200 : Nat) == 200) = true from rfl,
      if_true, hr, exceptOk_bind, hc]
    rw [show pyAsStr (.str c) = .ok c from rfl, exceptOk_bind, hf,
      exceptOk_bind, hj]
    rfl
  · intro g s t imgs ak resp
    exact ⟨gradeAux resp g s 0 max_retries, rfl⟩
  · intro g subj txt now save store
    rfl
  · intro g t blocks subj syll tmpl ws
    rfl

/-- Claim C4 witness: the amended theorem applied at concrete inputs —
an HTTP 500 yields `None` from `analyze_syllabus`, and a 200 body whose
content is not JSON yields `None` as well. -/
theorem c4_amended_witness :
    analyze_syllabus 3 "Math" "txt" true "T0" (.response 500 "oops") [] =
      .ok (none, []) ∧
    analyze_syllabus 3 "Math" "txt" true "T0" (.response 200
      "\x7b\"choices\": [\x7b\"message\": \x7b\"content\": \"not json\"\x7d\x7d]\x7d")
      [] = .ok (none, []) :=
  ⟨c4_amended.1 3 "Math" "txt" "T0" true 500 "oops" [] (by omega),
   c4_amended.2.2.1 3 "Math" "txt" "T0" true _ []
     (.obj [("choices", .arr [.obj [("message",
       .obj [("content", .str "not json")])]])])
     "not json" "not json".data .jsonDecodeError rfl rfl rfl rfl⟩

/-! ### Brace narrowing in the grading sanitizer -/

theorem dropWhile_append_cons (p : Char → Bool) (pre : List Char) (x : Char)
    (xs : List Char) (hx : p x = false) :
    (pre ++ x :: xs).dropWhile p = pre.dropWhile p ++ x :: xs := by
  induction pre with
  | nil => simp [List.dropWhile_cons, hx]
  | cons c cs ih =>
    by_cases hc : p c
    · simp [List.dropWhile_cons, hc, ih]
    · simp only [Bool.not_eq_true] at hc
      simp [List.dropWhile_cons, hc]

theorem findIdxL_append_not_mem {c : Char} {l₁ : List Char}
    (h : c ∉ l₁) (l₂ : List Char) :
    findIdxL c (l₁ ++ l₂) = (findIdxL c l₂).map (· + l₁.length) := by
  induction l₁ with
  | nil => simp
  | cons x xs ih =>
    have hx : x ≠ c := fun he => h (he ▸ List.mem_cons_self x xs)
    have hxs : c ∉ xs := fun hm => h (List.mem_cons_of_mem x hm)
    rw [List.cons_append, findIdxL, if_neg hx, ih hxs]
    cases findIdxL c l₂ with
    | none => rfl
    | some i => simp [List.length_cons]; omega

theorem findIdxL_cons_self (c : Char) (l : List Char) :
    findIdxL c (c :: l) = some 0 := by
  rw [findIdxL, if_pos rfl]

theorem stripL_decomp (pre mid post : List Char) :
    stripL (pre ++ (lbrace :: mid ++ [rbrace]) ++ post) =
      pre.dropWhile isPySpace ++ (lbrace :: mid ++ [rbrace]) ++
        (post.reverse.dropWhile isPySpace).reverse := by
  unfold stripL
  rw [show pre ++ (lbrace :: mid ++ [rbrace]) ++ post =
      pre ++ lbrace :: (mid ++ [rbrace] ++ post) from by simp]
  rw [dropWhile_append_cons _ _ _ _ (by decide)]
  rw [show pre.dropWhile isPySpace ++ lbrace :: (mid ++ [rbrace] ++ post) =
      (pre.dropWhile isPySpace ++ lbrace :: mid) ++ rbrace :: post from
      by simp]
  rw [List.reverse_append]
  rw [show (rbrace :: post).reverse = post.reverse ++ [rbrace] from by simp]
  rw [List.append_assoc]
  simp only [List.singleton_append]
  rw [dropWhile_append_cons _ _ _ _ (by decide)]
  simp

theorem mem_dropWhile_of_mem {c : Char} {p : Char → Bool} {l : List Char}
    (h : c ∈ l.dropWhile p) : c ∈ l := (List.dropWhile_sublist p).mem h

/-- Claim C5 (amended): the grading sanitizer `clean_json_response` —
and only it; the syllabus path has no such narrowing — narrows a
non-fenced candidate to the substring from the first `{` to the last `}`
inclusive: prose before and after a brace-delimited JSON object is
discarded, so it cannot cause a parse failure. -/
theorem c5_amended (pre mid post : List Char)
    (hpre1 : lbrace ∉ pre) (_hpre2 : rbrace ∉ pre)
    (_hpost1 : lbrace ∉ post) (hpost2 : rbrace ∉ post)
    (hfence : startsWithL ticks
      (stripL (pre ++ (lbrace :: mid ++ [rbrace]) ++ post)) = false) :
    clean_json_response ⟨pre ++ (lbrace :: mid ++ [rbrace]) ++ post⟩ =
      .ok ⟨lbrace :: mid ++ [rbrace]⟩ := by
  unfold clean_json_response
  rw [show (⟨pre ++ (lbrace :: mid ++ [rbrace]) ++ post⟩ : String).data =
      pre ++ (lbrace :: mid ++ [rbrace]) ++ post from rfl]
  rw [if_neg (by rw [hfence]; simp)]
  rw [stripL_decomp]
  set pre' := pre.dropWhile isPySpace with hpre'
  set post' := (post.reverse.dropWhile isPySpace).reverse with hpost'
  have hpre1' : lbrace ∉ pre' := fun hm => hpre1 (mem_dropWhile_of_mem hm)
  have hpost2' : rbrace ∉ post'.reverse := by
    rw [hpost', List.reverse_reverse]
    intro hm
    exact hpost2 (List.mem_reverse.mp (mem_dropWhile_of_mem hm))
  have hfind : findIdxL lbrace
      (pre' ++ (lbrace :: mid ++ [rbrace]) ++ post') = some pre'.length := by
    rw [List.append_assoc, findIdxL_append_not_mem hpre1',
      show (lbrace :: mid ++ [rbrace]) ++ post' =
        lbrace :: (mid ++ [rbrace] ++ post') from by simp,
      findIdxL_cons_self]
    simp
  have hrfind : rfindIdxL rbrace
      (pre' ++ (lbrace :: mid ++ [rbrace]) ++ post') =
      some (pre'.length + mid.length + 1) := by
    rw [rfindIdxL]
    rw [show (pre' ++ (lbrace :: mid ++ [rbrace]) ++ post').reverse =
        post'.reverse ++ rbrace :: (mid.reverse ++ lbrace :: pre'.reverse)
        from by simp]
    rw [findIdxL_append_not_mem hpost2', findIdxL_cons_self]
    simp
    omega
  rw [hfind, hrfind]
  have hslice : sliceL (pre' ++ (lbrace :: mid ++ [rbrace]) ++ post')
      pre'.length (pre'.length + mid.length + 1 + 1) =
      lbrace :: mid ++ [rbrace] := by
    have h1 : pre' ++ (lbrace :: mid ++ [rbrace]) ++ post' =
        pre' ++ ((lbrace :: mid ++ [rbrace]) ++ post') :=
      List.append_assoc _ _ _
    rw [sliceL, h1, List.drop_left]
    have h2 : pre'.length + mid.length + 1 + 1 - pre'.length =
        (lbrace :: mid ++ [rbrace]).length := by
      simp only [List.length_cons, List.length_append, List.length_nil]
      omega
    rw [h2]
    exact List.take_left _ _
  simp only [hslice]

/-- Claim C5 witness: the narrowing theorem applied to a concrete
prose-wrapped JSON object. -/
theorem c5_amended_witness :
    clean_json_response
      ⟨"Here: ".data ++ (lbrace :: "\"a\": 1".data ++ [rbrace]) ++
        " done".data⟩ =
      .ok ⟨lbrace :: "\"a\": 1".data ++ [rbrace]⟩ :=
  c5_amended "Here: ".data "\"a\": 1".data " done".data (by decide)
    (by decide) (by decide) (by decide) (by decide)
